import Mathlib

/-!
Verification of the real-time sensing / event-detection / capture core of the
shitbox vehicle-telemetry daemon, as a shallow embedding in Lean 4.

Python floats are modelled as exact rationals (`ℚ`).  Python lists/deques are
modelled as Lean `List`s.  Python dicts keyed by `EventType` are modelled as
association lists.  Wall-clock reads (`time.time()`, `time.monotonic()`) are
modelled as explicit `now` parameters threaded through the state-transition
functions.
-/

namespace Shitbox

/-- Model of `IMUSample` from `shitbox/events/ring_buffer.py`: one timestamped 6-axis
inertial reading (acceleration in g, rotation rate in deg/s). -/
structure IMUSample where
  timestamp : ℚ
  ax : ℚ
  ay : ℚ
  az : ℚ
  gx : ℚ
  gy : ℚ
  gz : ℚ
deriving DecidableEq

namespace RingBuffer

/-- Model of `RingBuffer.append` from `shitbox/events/ring_buffer.py`.  The buffer is a
`deque` with `maxlen = max_samples` (`max_samples = int(max_seconds *
sample_rate_hz)`); appending to a full deque evicts the oldest element. -/
def append (max_samples : ℕ) (buf : List IMUSample) (s : IMUSample) : List IMUSample :=
  let b := buf ++ [s]
  if max_samples < b.length then b.drop (b.length - max_samples) else b

/-- Run a whole sequence of `append`s starting from the empty buffer. -/
def run_appends (max_samples : ℕ) (l : List IMUSample) : List IMUSample :=
  l.foldl (append max_samples) []

/-- Model of `RingBuffer.get_window` from `shitbox/events/ring_buffer.py`: the empty
buffer yields `[]`; otherwise keep every sample whose timestamp is at least
`now - seconds` where `now` is the last (most recent) sample's timestamp. -/
def get_window (buf : List IMUSample) (seconds : ℚ) : List IMUSample :=
  match buf.getLast? with
  | none => []
  | some last => buf.filter (fun s => decide (last.timestamp - seconds ≤ s.timestamp))

/-- Python list slice `lst[-n:]` for a natural `n`: for `n = 0` this is
`lst[0:]`, i.e. the whole list; for `n ≥ 1` it is the last `n` elements
(the whole list when `n` exceeds the length). -/
def pyLastSlice (n : ℕ) (l : List IMUSample) : List IMUSample :=
  if n = 0 then l else l.drop (l.length - n)

/-- Model of `RingBuffer.get_latest` from `shitbox/events/ring_buffer.py`:
`if n >= len(buffer): return list(buffer)` else `list(buffer)[-n:]`. -/
def get_latest (n : ℕ) (buf : List IMUSample) : List IMUSample :=
  if buf.length ≤ n then buf else pyLastSlice n buf


end RingBuffer

end Shitbox

namespace Shitbox

/-- Model of `EventType` from `shitbox/events/detector.py`. -/
inductive EventType where
  | HARD_BRAKE
  | BIG_CORNER
  | ROUGH_ROAD
  | HIGH_G
  | MANUAL_CAPTURE
  | BOOT
deriving DecidableEq

namespace VideoRingBuffer

/-- Stat of one segment file in the buffer directory: modification time and
size in bytes, as read via `Path.stat()` by `_check_stall` and
`_copy_complete_segments` in `shitbox/capture/ring_buffer.py`. -/
structure Segment where
  mtime : ℚ
  size : ℕ
deriving DecidableEq

/-- Stall-detection state: `_last_segment_mtime`, `_last_segment_size`,
`_stall_check_armed` from `shitbox/capture/ring_buffer.py`. -/
structure StallState where
  last_segment_mtime : ℚ
  last_segment_size : ℕ
  stall_check_armed : Bool
deriving DecidableEq

/-- The stall state established by `VideoRingBuffer.__init__`
(mtime `0.0`, size `0`, unarmed). -/
def initStallState : StallState :=
  { last_segment_mtime := 0, last_segment_size := 0, stall_check_armed := false }

/-- Model of `_reset_stall_state`, called at the start of every `_start_ffmpeg`
launch and relaunch. -/
def reset_stall_state : StallState :=
  { last_segment_mtime := 0, last_segment_size := 0, stall_check_armed := false }

/-- The `STALL_TIMEOUT_SECONDS` class constant. -/
def STALL_TIMEOUT_SECONDS : ℚ := 30

/-- Diagnostic data carried by a stall verdict (the dict built by
`_check_stall`). -/
structure StallInfo where
  segment : Segment
  mtime_age_s : ℚ
  segment_count : ℕ
deriving DecidableEq

/-- Model of `_check_stall` from `shitbox/capture/ring_buffer.py`, as a pure transition
on the stall state.  `segments` is the mtime-sorted listing returned by
`_get_buffer_segments` (oldest first, so the newest segment is last); `now`
is `time.time()`.  Returns the updated state and an optional stall verdict. -/
def check_stall (st : StallState) (segments : List Segment) (now : ℚ) :
    StallState × Option StallInfo :=
  match segments.getLast? with
  | none => (st, none)
  | some newest =>
    if st.stall_check_armed = false then
      ({ last_segment_mtime := newest.mtime, last_segment_size := newest.size,
         stall_check_armed := true }, none)
    else if newest.mtime ≠ st.last_segment_mtime ∨ newest.size ≠ st.last_segment_size then
      ({ last_segment_mtime := newest.mtime, last_segment_size := newest.size,
         stall_check_armed := st.stall_check_armed }, none)
    else if STALL_TIMEOUT_SECONDS < now - st.last_segment_mtime then
      (st, some { segment := newest, mtime_age_s := now - newest.mtime,
                  segment_count := segments.length })
    else (st, none)

/-- The `MIN_SEGMENT_BYTES` class constant. -/
def MIN_SEGMENT_BYTES : ℕ := 10000

/-- Model of `_copy_complete_segments` from `shitbox/capture/ring_buffer.py`: with
fewer than two segment files present it returns nothing; otherwise it keeps
the completed segments (all but the newest, mtime-sorted-last one), dropping
any below the minimum-size floor and, when `min_mtime` is given, any whose
mtime is older than it.  The result models the list of copied segments. -/
def copy_complete_segments (segments : List Segment) (min_mtime : Option ℚ) :
    List Segment :=
  if segments.length < 2 then []
  else segments.dropLast.filter (fun seg =>
    decide (MIN_SEGMENT_BYTES ≤ seg.size) &&
    (match min_mtime with
     | none => true
     | some mm => decide (mm ≤ seg.mtime)))

/-- Model of `_do_save_event` from `shitbox/capture/ring_buffer.py`, with the directory
listing at the pre-copy (`pre_snapshot`, taken at time `pre_cutoff`) and at
the post-copy (`post_snapshot`, after the post-event sleep) passed explicitly,
and the concatenate-then-verify step (`_concatenate_segments` plus the
exists/non-empty output check) abstracted as `concatenate`, which yields
the verified output path or `none` on any failure.  The returned value is
what the worker passes to the caller's callback; every control path invokes
the callback and no exception escapes to the caller. -/
def do_save_event {π : Type} (pre_snapshot post_snapshot : List Segment)
    (pre_cutoff : ℚ) (concatenate : List Segment → Option π) : Option π :=
  let pre_segments := copy_complete_segments pre_snapshot none
  let post_segments := copy_complete_segments post_snapshot (some pre_cutoff)
  let all_segments := pre_segments ++ post_segments
  if all_segments.isEmpty then none
  else concatenate all_segments

end VideoRingBuffer

namespace Engine

/-- One in-flight `PendingCapture` entry of `_pending_post_capture` in
`shitbox/events/engine.py`: `id(event)` and its `capture_until` deadline. -/
structure PendingCapture where
  event_id : ℕ
  capture_until : ℚ
deriving DecidableEq

/-- Model of `VIDEO_CAPTURE_EVENTS` from `shitbox/events/engine.py`. -/
def VIDEO_CAPTURE_EVENTS : List EventType :=
  [EventType.HARD_BRAKE, EventType.HIGH_G, EventType.BIG_CORNER,
   EventType.ROUGH_ROAD, EventType.MANUAL_CAPTURE, EventType.BOOT]

/-- Result of one `_on_event` call: the new pending-capture map plus which
side effects were triggered on the collaborators. -/
structure OnEventResult where
  pending : List PendingCapture
  video_save_started : Bool
  recorder_started : Bool
  metadata_only_saved : Bool
  suppressed : Bool
deriving DecidableEq

/-- Model of `_on_event` from `shitbox/events/engine.py`, as a pure transition.
`now` models `time.monotonic()`; `segment_count` is the length of the
listing returned by `VideoRingBuffer._get_buffer_segments()`;
`vrb_available`/`vrb_running` model `self.video_ring_buffer` being set and
its `is_running`; `recorder_available`/`recorder_recording` model the
fallback `self.video_recorder` path.  GPS/MQTT side effects touch only
external collaborators and do not affect the transition. -/
def on_event (pending : List PendingCapture) (etype : EventType) (eid : ℕ)
    (now post_event_seconds : ℚ)
    (vrb_available vrb_running : Bool) (segment_count : ℕ)
    (recorder_available recorder_recording : Bool) : OnEventResult :=
  if pending ≠ [] ∧ etype ≠ EventType.BOOT then
    { pending := pending.map (fun p =>
        { event_id := p.event_id,
          capture_until := if p.capture_until < now + post_event_seconds
                           then now + post_event_seconds else p.capture_until }),
      video_save_started := false, recorder_started := false,
      metadata_only_saved := false, suppressed := true }
  else if etype ∈ VIDEO_CAPTURE_EVENTS ∧ vrb_available = true ∧ vrb_running = true then
    if etype = EventType.BOOT ∧ segment_count < 2 then
      { pending := pending, video_save_started := false, recorder_started := false,
        metadata_only_saved := true, suppressed := false }
    else
      { pending := pending ++ [⟨eid, now + post_event_seconds⟩],
        video_save_started := true, recorder_started := false,
        metadata_only_saved := false, suppressed := false }
  else if etype ∈ VIDEO_CAPTURE_EVENTS ∧ recorder_available = true
      ∧ recorder_recording = false then
    { pending := pending ++ [⟨eid, now + post_event_seconds⟩],
      video_save_started := false, recorder_started := true,
      metadata_only_saved := false, suppressed := false }
  else
    { pending := pending ++ [⟨eid, now + post_event_seconds⟩],
      video_save_started := false, recorder_started := false,
      metadata_only_saved := false, suppressed := false }

/-- Number of completed segments given `n` segment files in the buffer
directory: the newest (mtime-sorted-last) segment is always treated as open
for writing (`_latest_complete_segment`, `_copy_complete_segments`), so all
but one are completed. -/
def completed_segment_count (segment_count : ℕ) : ℕ := segment_count - 1

/-- Outcome of the boot-capture step at the end of `UnifiedEngine.start`. -/
structure BootStartResult where
  boot_event_emitted : Bool
  on_event_result : Option OnEventResult
deriving DecidableEq

/-- The boot-capture step at the end of `UnifiedEngine.start`
(`shitbox/events/engine.py`): when the video ring buffer is configured and
running, a synthetic BOOT `Event` is created and routed through `_on_event`;
otherwise no boot event is emitted. -/
def engine_start_boot (pending : List PendingCapture) (eid : ℕ)
    (now post_event_seconds : ℚ) (vrb_available vrb_running : Bool)
    (segment_count : ℕ) (recorder_available recorder_recording : Bool) :
    BootStartResult :=
  if vrb_available = true ∧ vrb_running = true then
    { boot_event_emitted := true,
      on_event_result := some (on_event pending EventType.BOOT eid now
        post_event_seconds vrb_available vrb_running segment_count
        recorder_available recorder_recording) }
  else
    { boot_event_emitted := false, on_event_result := none }

end Engine

namespace Sampler

/-- Model of `I2C_CONSECUTIVE_FAILURE_THRESHOLD` from `shitbox/events/sampler.py`. -/
def I2C_CONSECUTIVE_FAILURE_THRESHOLD : ℕ := 5

/-- Recovery outcome of one failed-read iteration of `_sample_loop`. -/
inductive RecoveryAction where
  | noAction
  | recovered
  | rebooted
deriving DecidableEq

/-- The `except` branch of one `_sample_loop` iteration in
`shitbox/events/sampler.py` (a sensor read raised): increment the
consecutive-failure counter; at the threshold, attempt `_i2c_bus_reset`
(`bus_reset_succeeds` models its return value); on success zero the counter,
on failure call `_force_reboot()` (full host restart).  Returns the new
counter and the action taken. -/
def sample_loop_read_failure (consecutive_failures : ℕ) (bus_reset_succeeds : Bool) :
    ℕ × RecoveryAction :=
  let cf := consecutive_failures + 1
  if I2C_CONSECUTIVE_FAILURE_THRESHOLD ≤ cf then
    if bus_reset_succeeds then (0, RecoveryAction.recovered)
    else (cf, RecoveryAction.rebooted)
  else (cf, RecoveryAction.noAction)

end Sampler

end Shitbox
namespace Shitbox
namespace Detector

/-- Model of `Event` from `shitbox/events/detector.py` at detection time (the
location/speed enrichment fields are attached later by the engine and are
not part of detection). -/
structure Event where
  event_type : EventType
  start_time : ℚ
  end_time : ℚ
  peak_value : ℚ
  peak_ax : ℚ
  peak_ay : ℚ
  peak_az : ℚ
  samples : List IMUSample
deriving DecidableEq

/-- Model of `DetectorConfig` from `shitbox/events/detector.py`, with the source's
default thresholds. -/
structure DetectorConfig where
  hard_brake_threshold_g : ℚ := -(45/100)
  hard_brake_min_duration_ms : ℕ := 200
  big_corner_threshold_g : ℚ := 6/10
  big_corner_min_duration_ms : ℕ := 300
  rough_road_threshold_stddev : ℚ := 3/10
  rough_road_window_ms : ℕ := 1000
  high_g_threshold : ℚ := 85/100
  high_g_min_duration_ms : ℕ := 150
  cooldown_seconds : ℚ := 10
  pre_event_seconds : ℚ := 5
  post_event_seconds : ℚ := 10
deriving DecidableEq

/-- Model of `_az_window_size = int(rough_road_window_ms / 10)` (assuming ~100 Hz). -/
def az_window_size (cfg : DetectorConfig) : ℕ := cfg.rough_road_window_ms / 10

/-- One per-type active-episode record (the dict stored in
`_active_events`). -/
structure ActiveEventData where
  start_time : ℚ
  samples : List IMUSample
  peak_value : ℚ
  peak_ax : ℚ
  peak_ay : ℚ
  peak_az : ℚ
deriving DecidableEq

/-- Association-list lookup, modelling `d.get(k)` / `k in d` on a Python
dict keyed by `EventType`. -/
def lookupA {α : Type} : List (EventType × α) → EventType → Option α
  | [], _ => none
  | (k, v) :: t, key => if k = key then some v else lookupA t key

/-- Association-list store, modelling `d[k] = v`. -/
def setA {α : Type} (key : EventType) (v : α) :
    List (EventType × α) → List (EventType × α)
  | [] => [(key, v)]
  | (k, w) :: t => if k = key then (key, v) :: t else (k, w) :: setA key v t

/-- Association-list removal, modelling `d.pop(k)`. -/
def eraseA {α : Type} (key : EventType) (l : List (EventType × α)) :
    List (EventType × α) :=
  l.filter (fun p => decide (p.1 ≠ key))

/-- Model of `d.get(k, default)`. -/
def getD (l : List (EventType × ℚ)) (key : EventType) (dflt : ℚ) : ℚ :=
  match lookupA l key with
  | some v => v
  | none => dflt

/-- The mutable state of `EventDetector`: `_active_events`,
`_last_event_time`, `events_detected`, `_az_window`. -/
structure DetectorState where
  active_events : List (EventType × ActiveEventData)
  last_event_time : List (EventType × ℚ)
  events_detected : List (EventType × ℕ)
  az_window : List ℚ
deriving DecidableEq

/-- The state built by `EventDetector.__init__`. -/
def initState : DetectorState :=
  { active_events := [], last_event_time := [],
    events_detected := [(EventType.HARD_BRAKE, 0), (EventType.BIG_CORNER, 0),
      (EventType.ROUGH_ROAD, 0), (EventType.HIGH_G, 0),
      (EventType.MANUAL_CAPTURE, 0), (EventType.BOOT, 0)],
    az_window := [] }

/-- Model of `_is_on_cooldown`: `time.time() - last_time < cooldown_seconds`, with
`time.time()` modelled as `now`.  The sampler stamps each sample with
`time.time()`, so `now` is the current sample's timestamp. -/
def is_on_cooldown (cfg : DetectorConfig) (st : DetectorState) (now : ℚ)
    (t : EventType) : Bool :=
  decide (now - getD st.last_event_time t 0 < cfg.cooldown_seconds)

/-- Model of `_start_event`: begin tracking a potential event, unless one of this
type is already tracked or the type is on cooldown. -/
def start_event (cfg : DetectorConfig) (st : DetectorState) (now : ℚ)
    (t : EventType) (s : IMUSample) (trigger_value : ℚ) : DetectorState :=
  if (lookupA st.active_events t).isSome then st
  else if is_on_cooldown cfg st now t then st
  else
    let d : ActiveEventData :=
      { start_time := s.timestamp, samples := [s],
        peak_value := abs trigger_value, peak_ax := s.ax,
        peak_ay := s.ay, peak_az := s.az }
    { st with active_events := setA t d st.active_events }

/-- Model of `_update_event`: append the sample to the active episode and track the
sample of peak magnitude. -/
def update_event (st : DetectorState) (t : EventType) (s : IMUSample)
    (current_value : ℚ) : DetectorState :=
  match lookupA st.active_events t with
  | none => st
  | some d =>
    let d1 : ActiveEventData := { d with samples := d.samples ++ [s] }
    let d2 : ActiveEventData :=
      if d1.peak_value < abs current_value then
        { d1 with peak_value := abs current_value, peak_ax := s.ax,
                  peak_ay := s.ay, peak_az := s.az }
      else d1
    { st with active_events := setA t d2 st.active_events }

/-- The per-type minimum-duration table in `_end_event` (`.get(type, 0)`). -/
def min_duration_ms (cfg : DetectorConfig) : EventType → ℕ
  | EventType.HARD_BRAKE => cfg.hard_brake_min_duration_ms
  | EventType.BIG_CORNER => cfg.big_corner_min_duration_ms
  | EventType.HIGH_G => cfg.high_g_min_duration_ms
  | EventType.ROUGH_ROAD => cfg.rough_road_window_ms
  | _ => 0

/-- Model of `_end_event`: close an active episode; discard it silently when shorter
than the type's minimum duration, otherwise emit a completed `Event` whose
sample window is the ring buffer's pre-event lookback, bump the counter and
start the cooldown. -/
def end_event (cfg : DetectorConfig) (ring_buffer : List IMUSample)
    (st : DetectorState) (t : EventType) (s : IMUSample) :
    DetectorState × Option Event :=
  match lookupA st.active_events t with
  | none => (st, none)
  | some data =>
    let st1 : DetectorState := { st with active_events := eraseA t st.active_events }
    let duration_ms : ℚ := (s.timestamp - data.start_time) * 1000
    if duration_ms < (min_duration_ms cfg t : ℚ) then (st1, none)
    else
      let pre_samples := RingBuffer.get_window ring_buffer
        (cfg.pre_event_seconds + duration_ms / 1000)
      let ev : Event :=
        { event_type := t, start_time := data.start_time,
          end_time := s.timestamp, peak_value := data.peak_value,
          peak_ax := data.peak_ax, peak_ay := data.peak_ay,
          peak_az := data.peak_az, samples := pre_samples }
      ({ st1 with
          events_detected := setA t
            ((match lookupA st1.events_detected t with
              | some n => n
              | none => 0) + 1) st1.events_detected,
          last_event_time := setA t s.timestamp st1.last_event_time },
       some ev)

/-- Model of `_check_hard_brake`: strong negative longitudinal acceleration. -/
def check_hard_brake (cfg : DetectorConfig) (rb : List IMUSample) (now : ℚ)
    (st : DetectorState) (s : IMUSample) : DetectorState × Option Event :=
  if s.ax < cfg.hard_brake_threshold_g then
    if (lookupA st.active_events EventType.HARD_BRAKE).isNone then
      (start_event cfg st now EventType.HARD_BRAKE s s.ax, none)
    else (update_event st EventType.HARD_BRAKE s s.ax, none)
  else end_event cfg rb st EventType.HARD_BRAKE s

/-- Model of `_check_big_corner`: strong lateral acceleration. -/
def check_big_corner (cfg : DetectorConfig) (rb : List IMUSample) (now : ℚ)
    (st : DetectorState) (s : IMUSample) : DetectorState × Option Event :=
  if cfg.big_corner_threshold_g < abs s.ay then
    if (lookupA st.active_events EventType.BIG_CORNER).isNone then
      (start_event cfg st now EventType.BIG_CORNER s s.ay, none)
    else (update_event st EventType.BIG_CORNER s s.ay, none)
  else end_event cfg rb st EventType.BIG_CORNER s

/-- Model of `_check_high_g`: the source compares `sqrt(ax² + ay²) > threshold` and
feeds `sqrt(ax² + ay²)` as the trigger/current value.  Over exact rationals
the comparison is modelled square-for-square (`threshold² < ax² + ay²`,
order-equivalent because both sides are non-negative), so the recorded peak
value for HIGH_G is the squared combined magnitude in this embedding. -/
def check_high_g (cfg : DetectorConfig) (rb : List IMUSample) (now : ℚ)
    (st : DetectorState) (s : IMUSample) : DetectorState × Option Event :=
  let combined_sq := s.ax ^ 2 + s.ay ^ 2
  if cfg.high_g_threshold ^ 2 < combined_sq then
    if (lookupA st.active_events EventType.HIGH_G).isNone then
      (start_event cfg st now EventType.HIGH_G s combined_sq, none)
    else (update_event st EventType.HIGH_G s combined_sq, none)
  else end_event cfg rb st EventType.HIGH_G s

/-- Model of `_check_rough_road`: maintain the fixed-length rolling window of az
values; with the window not yet full, return immediately; otherwise
threshold the standard deviation.  The source compares
`sqrt(variance) > threshold`; this is modelled square-for-square
(`threshold² < variance`), so the recorded trigger value for ROUGH_ROAD is
the variance in this embedding. -/
def check_rough_road (cfg : DetectorConfig) (rb : List IMUSample) (now : ℚ)
    (st : DetectorState) (s : IMUSample) : DetectorState × Option Event :=
  let w0 := st.az_window ++ [s.az]
  let w := if az_window_size cfg < w0.length then w0.drop 1 else w0
  let st1 : DetectorState := { st with az_window := w }
  if w.length < az_window_size cfg then (st1, none)
  else
    let mean_az := w.sum / (w.length : ℚ)
    let variance := (w.map (fun z => (z - mean_az) ^ 2)).sum / (w.length : ℚ)
    if cfg.rough_road_threshold_stddev ^ 2 < variance then
      if (lookupA st1.active_events EventType.ROUGH_ROAD).isNone then
        (start_event cfg st1 now EventType.ROUGH_ROAD s variance, none)
      else (update_event st1 EventType.ROUGH_ROAD s variance, none)
    else end_event cfg rb st1 EventType.ROUGH_ROAD s

/-- Python's `a or b` on two optionals. -/
def pyOr {α : Type} (a b : Option α) : Option α :=
  match a with
  | some x => some x
  | none => b

/-- Model of `process_sample`: run the four per-type checks in source order, each on
the state the previous one left; the returned completed event is the last
non-`None` result (`x = check(...) or x` chains). -/
def process_sample (cfg : DetectorConfig) (rb : List IMUSample) (now : ℚ)
    (st : DetectorState) (s : IMUSample) : DetectorState × Option Event :=
  let r1 := check_hard_brake cfg rb now st s
  let r2 := check_big_corner cfg rb now r1.1 s
  let r3 := check_high_g cfg rb now r2.1 s
  let r4 := check_rough_road cfg rb now r3.1 s
  (r4.1, pyOr r4.2 (pyOr r3.2 (pyOr r2.2 r1.2)))

/-- One sampler iteration feeding the detector: append the fresh sample to
the sample ring buffer, then run `process_sample` with `time.time()` equal
to the timestamp the sampler stamped on the sample. -/
def step (cfg : DetectorConfig) (max_samples : ℕ)
    (acc : (List IMUSample × DetectorState) × List Event) (s : IMUSample) :
    (List IMUSample × DetectorState) × List Event :=
  let rb := RingBuffer.append max_samples acc.1.1 s
  let r := process_sample cfg rb s.timestamp acc.1.2 s
  ((rb, r.1), acc.2 ++ r.2.toList)

/-- Feed a whole sample sequence through the sampler-to-detector pipeline,
collecting every completed event. -/
def run_detector (cfg : DetectorConfig) (max_samples : ℕ)
    (samples : List IMUSample) : (List IMUSample × DetectorState) × List Event :=
  samples.foldl (step cfg max_samples) (([], initState), [])

end Detector
end Shitbox
namespace Shitbox
namespace Detector

/-- Helper for building a test sample: timestamp and longitudinal
acceleration, all other axes at rest. -/
def mkS (ts ax : ℚ) : IMUSample := ⟨ts, ax, 0, 0, 0, 0, 0⟩

/-- Forward acceleration of -0.6 g held for 300 ms (samples at 1000.0 s,
1000.1 s, 1000.2 s), then a sample back above the threshold at 1000.3 s. -/
def c5_long : List IMUSample :=
  [mkS 1000 (-(3/5)), mkS (10001/10) (-(3/5)), mkS (5001/5) (-(3/5)),
   mkS (10003/10) 0]

/-- The same -0.6 g excursion held for only 100 ms. -/
def c5_short : List IMUSample :=
  [mkS 1000 (-(3/5)), mkS (20001/20) (-(3/5)), mkS (10001/10) 0]

/-- Two -0.6 g breaches of 300 ms each, the second starting 1.7 s after the
first event completed — well inside the 10 s cooldown. -/
def c6_close : List IMUSample :=
  [mkS 1000 (-(3/5)), mkS (10001/10) (-(3/5)), mkS (5001/5) (-(3/5)),
   mkS (10003/10) 0,
   mkS 1002 (-(3/5)), mkS (10021/10) (-(3/5)), mkS (5011/5) (-(3/5)),
   mkS (10023/10) 0]

/-- The same two breaches separated by 14.7 s — past the 10 s cooldown. -/
def c6_far : List IMUSample :=
  [mkS 1000 (-(3/5)), mkS (10001/10) (-(3/5)), mkS (5001/5) (-(3/5)),
   mkS (10003/10) 0,
   mkS 1015 (-(3/5)), mkS (10151/10) (-(3/5)), mkS (5076/5) (-(3/5)),
   mkS (10153/10) 0]

/-- The trace `c6_close` cut right after the first sample of the second breach. -/
def c6_close_prefix : List IMUSample :=
  [mkS 1000 (-(3/5)), mkS (10001/10) (-(3/5)), mkS (5001/5) (-(3/5)),
   mkS (10003/10) 0,
   mkS 1002 (-(3/5))]

end Detector
end Shitbox

namespace Shitbox
namespace RingBuffer

lemma append_eq_drop (m : ℕ) (buf : List IMUSample) (s : IMUSample) :
    append m buf s = (buf ++ [s]).drop ((buf ++ [s]).length - m) := by
  by_cases hc : m < (buf ++ [s]).length
  · simp only [append, if_pos hc]
  · simp only [append, if_neg hc]
    have h0 : (buf ++ [s]).length - m = 0 := by omega
    rw [h0, List.drop_zero]

lemma run_appends_eq_drop (m : ℕ) (l : List IMUSample) :
    run_appends m l = l.drop (l.length - m) := by
  induction l using List.reverseRecOn with
  | nil => simp [run_appends]
  | append_singleton l' x ih =>
    have hstep : run_appends m (l' ++ [x]) = append m (run_appends m l') x := by
      simp [run_appends, List.foldl_append]
    rw [hstep, ih, append_eq_drop]
    have hle : l'.length - m ≤ l'.length := Nat.sub_le _ _
    rw [← List.drop_append_of_le_length hle, List.drop_drop]
    congr 1
    simp only [List.length_drop, List.length_append, List.length_singleton]
    omega

lemma run_appends_length (m : ℕ) (l : List IMUSample) :
    (run_appends m l).length = l.length - (l.length - m) := by
  rw [run_appends_eq_drop]; simp [List.length_drop]

/-- In a buffer whose timestamps are weakly sorted, the cutoff filter used by
`get_window` keeps a contiguous suffix. -/
lemma filter_cutoff_suffix (c : ℚ) :
    ∀ l : List IMUSample, l.Pairwise (fun a b => a.timestamp ≤ b.timestamp) →
      l.filter (fun s => decide (c ≤ s.timestamp)) <:+ l := by
  intro l hl
  induction l with
  | nil => simp
  | cons a t ih =>
    rcases List.pairwise_cons.mp hl with ⟨ha, ht⟩
    by_cases hc : c ≤ a.timestamp
    · have hfilter : (a :: t).filter (fun s => decide (c ≤ s.timestamp)) = a :: t :=
        List.filter_eq_self.mpr (by
          intro b hb
          rcases List.mem_cons.mp hb with h | h
          · subst h; exact decide_eq_true hc
          · exact decide_eq_true (le_trans hc (ha b h)))
      rw [hfilter]
    · have : (a :: t).filter (fun s => decide (c ≤ s.timestamp))
          = t.filter (fun s => decide (c ≤ s.timestamp)) := by
        rw [List.filter_cons]
        simp [hc]
      rw [this]
      exact (ih ht).trans (List.suffix_cons a t)


end RingBuffer
end Shitbox

namespace Shitbox.Detector

lemma lookupA_setA_ne {α : Type} (k key : EventType) (h : k ≠ key) (v : α) :
    ∀ l : List (EventType × α), lookupA (setA k v l) key = lookupA l key := by
  intro l
  induction l with
  | nil => simp [setA, lookupA, h]
  | cons p t ih =>
    by_cases hp : p.1 = k
    · simp [setA, hp, lookupA, h]
    · simp only [setA, hp, if_neg]
      rcases p with ⟨pk, pv⟩
      simp only at hp
      simp [lookupA, hp, ih]

lemma lookupA_eraseA_ne {α : Type} (k key : EventType) (h : k ≠ key) :
    ∀ l : List (EventType × α), lookupA (eraseA k l) key = lookupA l key := by
  intro l
  induction l with
  | nil => rfl
  | cons p t ih =>
    rcases p with ⟨pk, pv⟩
    by_cases hp : pk = k
    · subst hp
      have h1 : eraseA pk ((pk, pv) :: t) = eraseA pk t := by
        simp [eraseA, List.filter_cons]
      have hkey : pk ≠ key := h
      rw [h1, ih]
      simp [lookupA, hkey]
    · have h1 : eraseA k ((pk, pv) :: t) = (pk, pv) :: eraseA k t := by
        simp [eraseA, List.filter_cons, hp]
      rw [h1]
      by_cases hkk : pk = key
      · simp [lookupA, hkk]
      · simp [lookupA, hkk, ih]

lemma start_event_az (cfg : DetectorConfig) (st : DetectorState) (now : ℚ)
    (t : EventType) (s : IMUSample) (v : ℚ) :
    (start_event cfg st now t s v).az_window = st.az_window := by
  unfold start_event
  split_ifs <;> rfl

lemma start_event_lookup_ne (cfg : DetectorConfig) (st : DetectorState) (now : ℚ)
    (t : EventType) (s : IMUSample) (v : ℚ) (key : EventType) (h : t ≠ key) :
    lookupA (start_event cfg st now t s v).active_events key
      = lookupA st.active_events key := by
  unfold start_event
  split_ifs <;> simp [lookupA_setA_ne t key h]

lemma update_event_az (st : DetectorState) (t : EventType) (s : IMUSample) (v : ℚ) :
    (update_event st t s v).az_window = st.az_window := by
  unfold update_event
  rcases hl : lookupA st.active_events t with _ | d <;> simp [hl]

lemma update_event_lookup_ne (st : DetectorState) (t : EventType) (s : IMUSample)
    (v : ℚ) (key : EventType) (h : t ≠ key) :
    lookupA (update_event st t s v).active_events key
      = lookupA st.active_events key := by
  unfold update_event
  rcases hl : lookupA st.active_events t with _ | d
  · simp [hl]
  · simp [hl, lookupA_setA_ne t key h]

lemma end_event_az (cfg : DetectorConfig) (rb : List IMUSample) (st : DetectorState)
    (t : EventType) (s : IMUSample) :
    (end_event cfg rb st t s).1.az_window = st.az_window := by
  unfold end_event
  rcases hl : lookupA st.active_events t with _ | d
  · simp [hl]
  · simp only [hl]
    split_ifs <;> rfl

lemma end_event_lookup_ne (cfg : DetectorConfig) (rb : List IMUSample)
    (st : DetectorState) (t : EventType) (s : IMUSample) (key : EventType)
    (h : t ≠ key) :
    lookupA (end_event cfg rb st t s).1.active_events key
      = lookupA st.active_events key := by
  unfold end_event
  rcases hl : lookupA st.active_events t with _ | d
  · simp [hl]
  · simp only [hl]
    split_ifs <;> simp [lookupA_eraseA_ne t key h]

lemma end_event_type (cfg : DetectorConfig) (rb : List IMUSample)
    (st : DetectorState) (t : EventType) (s : IMUSample) (e : Event)
    (he : (end_event cfg rb st t s).2 = some e) : e.event_type = t := by
  unfold end_event at he
  rcases hl : lookupA st.active_events t with _ | d
  · rw [hl] at he; simp at he
  · rw [hl] at he
    simp only at he
    split_ifs at he with hd
    all_goals simp only [Option.some_inj] at he
    all_goals rw [← he]

end Shitbox.Detector
namespace Shitbox.Detector

lemma check_hard_brake_az (cfg : DetectorConfig) (rb : List IMUSample) (now : ℚ)
    (st : DetectorState) (s : IMUSample) :
    (check_hard_brake cfg rb now st s).1.az_window = st.az_window := by
  unfold check_hard_brake
  split_ifs <;>
    simp [start_event_az, update_event_az, end_event_az]

lemma check_hard_brake_lookup (cfg : DetectorConfig) (rb : List IMUSample) (now : ℚ)
    (st : DetectorState) (s : IMUSample) (key : EventType)
    (h : EventType.HARD_BRAKE ≠ key) :
    lookupA (check_hard_brake cfg rb now st s).1.active_events key
      = lookupA st.active_events key := by
  unfold check_hard_brake
  split_ifs
  · exact start_event_lookup_ne cfg st now EventType.HARD_BRAKE s s.ax key h
  · exact update_event_lookup_ne st EventType.HARD_BRAKE s s.ax key h
  · exact end_event_lookup_ne cfg rb st EventType.HARD_BRAKE s key h

lemma check_hard_brake_type (cfg : DetectorConfig) (rb : List IMUSample) (now : ℚ)
    (st : DetectorState) (s : IMUSample) (e : Event)
    (he : (check_hard_brake cfg rb now st s).2 = some e) :
    e.event_type = EventType.HARD_BRAKE := by
  unfold check_hard_brake at he
  split_ifs at he
  exact end_event_type cfg rb st EventType.HARD_BRAKE s e he

lemma check_big_corner_az (cfg : DetectorConfig) (rb : List IMUSample) (now : ℚ)
    (st : DetectorState) (s : IMUSample) :
    (check_big_corner cfg rb now st s).1.az_window = st.az_window := by
  unfold check_big_corner
  split_ifs <;>
    simp [start_event_az, update_event_az, end_event_az]

lemma check_big_corner_lookup (cfg : DetectorConfig) (rb : List IMUSample) (now : ℚ)
    (st : DetectorState) (s : IMUSample) (key : EventType)
    (h : EventType.BIG_CORNER ≠ key) :
    lookupA (check_big_corner cfg rb now st s).1.active_events key
      = lookupA st.active_events key := by
  unfold check_big_corner
  split_ifs
  · exact start_event_lookup_ne cfg st now EventType.BIG_CORNER s s.ay key h
  · exact update_event_lookup_ne st EventType.BIG_CORNER s s.ay key h
  · exact end_event_lookup_ne cfg rb st EventType.BIG_CORNER s key h

lemma check_big_corner_type (cfg : DetectorConfig) (rb : List IMUSample) (now : ℚ)
    (st : DetectorState) (s : IMUSample) (e : Event)
    (he : (check_big_corner cfg rb now st s).2 = some e) :
    e.event_type = EventType.BIG_CORNER := by
  unfold check_big_corner at he
  split_ifs at he
  exact end_event_type cfg rb st EventType.BIG_CORNER s e he

lemma check_high_g_az (cfg : DetectorConfig) (rb : List IMUSample) (now : ℚ)
    (st : DetectorState) (s : IMUSample) :
    (check_high_g cfg rb now st s).1.az_window = st.az_window := by
  simp only [check_high_g]
  split_ifs <;>
    simp [start_event_az, update_event_az, end_event_az]

lemma check_high_g_lookup (cfg : DetectorConfig) (rb : List IMUSample) (now : ℚ)
    (st : DetectorState) (s : IMUSample) (key : EventType)
    (h : EventType.HIGH_G ≠ key) :
    lookupA (check_high_g cfg rb now st s).1.active_events key
      = lookupA st.active_events key := by
  simp only [check_high_g]
  split_ifs
  · exact start_event_lookup_ne cfg st now EventType.HIGH_G s _ key h
  · exact update_event_lookup_ne st EventType.HIGH_G s _ key h
  · exact end_event_lookup_ne cfg rb st EventType.HIGH_G s key h

lemma check_high_g_type (cfg : DetectorConfig) (rb : List IMUSample) (now : ℚ)
    (st : DetectorState) (s : IMUSample) (e : Event)
    (he : (check_high_g cfg rb now st s).2 = some e) :
    e.event_type = EventType.HIGH_G := by
  simp only [check_high_g] at he
  split_ifs at he
  exact end_event_type cfg rb st EventType.HIGH_G s e he

lemma check_rough_road_not_full (cfg : DetectorConfig) (rb : List IMUSample)
    (now : ℚ) (st : DetectorState) (s : IMUSample)
    (h : st.az_window.length + 1 < az_window_size cfg) :
    check_rough_road cfg rb now st s
      = ({ st with az_window := st.az_window ++ [s.az] }, none) := by
  have hno : ¬ az_window_size cfg < st.az_window.length + 1 := by omega
  have hyes : st.az_window.length + 1 < az_window_size cfg := by omega
  simp [check_rough_road, hno, hyes]

lemma pyOr_eq_some {α : Type} (a b : Option α) (x : α) (h : pyOr a b = some x) :
    a = some x ∨ b = some x := by
  unfold pyOr at h
  cases a with
  | none => exact Or.inr h
  | some y => exact Or.inl h

lemma process_sample_not_full (cfg : DetectorConfig) (rb : List IMUSample)
    (now : ℚ) (st : DetectorState) (s : IMUSample)
    (h : st.az_window.length + 1 < az_window_size cfg) :
    (process_sample cfg rb now st s).1.az_window = st.az_window ++ [s.az]
    ∧ lookupA (process_sample cfg rb now st s).1.active_events EventType.ROUGH_ROAD
        = lookupA st.active_events EventType.ROUGH_ROAD
    ∧ ∀ e, (process_sample cfg rb now st s).2 = some e →
        e.event_type ≠ EventType.ROUGH_ROAD := by
  simp only [process_sample]
  generalize hr1 : check_hard_brake cfg rb now st s = r1
  have a1 : r1.1.az_window = st.az_window := by
    rw [← hr1]; exact check_hard_brake_az cfg rb now st s
  have l1 : lookupA r1.1.active_events EventType.ROUGH_ROAD
      = lookupA st.active_events EventType.ROUGH_ROAD := by
    rw [← hr1]; exact check_hard_brake_lookup cfg rb now st s _ (by decide)
  have t1 : ∀ e, r1.2 = some e → e.event_type = EventType.HARD_BRAKE := by
    intro e he
    rw [← hr1] at he
    exact check_hard_brake_type cfg rb now st s e he
  generalize hr2 : check_big_corner cfg rb now r1.1 s = r2
  have a2 : r2.1.az_window = r1.1.az_window := by
    rw [← hr2]; exact check_big_corner_az cfg rb now r1.1 s
  have l2 : lookupA r2.1.active_events EventType.ROUGH_ROAD
      = lookupA r1.1.active_events EventType.ROUGH_ROAD := by
    rw [← hr2]; exact check_big_corner_lookup cfg rb now r1.1 s _ (by decide)
  have t2 : ∀ e, r2.2 = some e → e.event_type = EventType.BIG_CORNER := by
    intro e he
    rw [← hr2] at he
    exact check_big_corner_type cfg rb now r1.1 s e he
  generalize hr3 : check_high_g cfg rb now r2.1 s = r3
  have a3 : r3.1.az_window = r2.1.az_window := by
    rw [← hr3]; exact check_high_g_az cfg rb now r2.1 s
  have l3 : lookupA r3.1.active_events EventType.ROUGH_ROAD
      = lookupA r2.1.active_events EventType.ROUGH_ROAD := by
    rw [← hr3]; exact check_high_g_lookup cfg rb now r2.1 s _ (by decide)
  have t3 : ∀ e, r3.2 = some e → e.event_type = EventType.HIGH_G := by
    intro e he
    rw [← hr3] at he
    exact check_high_g_type cfg rb now r2.1 s e he
  have hfull : r3.1.az_window.length + 1 < az_window_size cfg := by
    rw [a3, a2, a1]; exact h
  rw [check_rough_road_not_full cfg rb now r3.1 s hfull]
  refine ⟨?_, ?_, ?_⟩
  · simp [a3, a2, a1]
  · simp [l3, l2, l1]
  · intro e he
    simp only [pyOr] at he
    rcases pyOr_eq_some _ _ _ he with h3 | h21
    · rw [t3 e h3]; decide
    · rcases pyOr_eq_some _ _ _ h21 with h2 | h1
      · rw [t2 e h2]; decide
      · rw [t1 e h1]; decide

lemma step_not_full (cfg : DetectorConfig) (m : ℕ)
    (acc : (List IMUSample × DetectorState) × List Event) (s : IMUSample)
    (h : acc.1.2.az_window.length + 1 < az_window_size cfg) :
    (step cfg m acc s).1.2.az_window = acc.1.2.az_window ++ [s.az]
    ∧ lookupA (step cfg m acc s).1.2.active_events EventType.ROUGH_ROAD
        = lookupA acc.1.2.active_events EventType.ROUGH_ROAD
    ∧ ∀ e ∈ (step cfg m acc s).2, e ∈ acc.2 ∨ e.event_type ≠ EventType.ROUGH_ROAD := by
  unfold step
  obtain ⟨ha, hl, hm⟩ :=
    process_sample_not_full cfg (RingBuffer.append m acc.1.1 s) s.timestamp acc.1.2 s h
  refine ⟨ha, hl, ?_⟩
  intro e he
  simp only [List.mem_append] at he
  rcases he with he | he
  · exact Or.inl he
  · rcases hr : (process_sample cfg (RingBuffer.append m acc.1.1 s) s.timestamp
        acc.1.2 s).2 with _ | x
    · rw [hr] at he; simp [Option.toList] at he
    · rw [hr] at he
      simp [Option.toList] at he
      subst he
      exact Or.inr (hm e hr)

lemma run_rough_aux (cfg : DetectorConfig) (m : ℕ) :
    ∀ (L : List IMUSample) (rb : List IMUSample) (st : DetectorState)
      (evs : List Event),
      st.az_window.length + L.length < az_window_size cfg →
      lookupA st.active_events EventType.ROUGH_ROAD = none →
      (∀ e ∈ evs, e.event_type ≠ EventType.ROUGH_ROAD) →
      (∀ e ∈ (L.foldl (step cfg m) ((rb, st), evs)).2,
          e.event_type ≠ EventType.ROUGH_ROAD)
      ∧ lookupA (L.foldl (step cfg m) ((rb, st), evs)).1.2.active_events
          EventType.ROUGH_ROAD = none := by
  intro L
  induction L with
  | nil =>
    intro rb st evs h hR hevs
    exact ⟨hevs, hR⟩
  | cons s L ih =>
    intro rb st evs h hR hevs
    rw [List.foldl_cons]
    have hpre : st.az_window.length + 1 < az_window_size cfg := by
      simp only [List.length_cons] at h
      omega
    have hstep := step_not_full cfg m ((rb, st), evs) s hpre
    rcases hs : step cfg m ((rb, st), evs) s with ⟨⟨rb2, st2⟩, evs2⟩
    rw [hs] at hstep
    obtain ⟨ha, hl, hm⟩ := hstep
    refine ih rb2 st2 evs2 ?_ ?_ ?_
    · have hlen2 : st2.az_window.length = st.az_window.length + 1 := by
        rw [ha]; simp
      simp only [List.length_cons] at h
      omega
    · rw [hl]; exact hR
    · intro e he
      rcases hm e he with hin | hne
      · exact hevs e hin
      · exact hne

end Shitbox.Detector
namespace Shitbox.Detector

lemma detStepA0 :
    Shitbox.Detector.step {} 3000
      (([], ⟨[], [], [(EventType.HARD_BRAKE, 0), (EventType.BIG_CORNER, 0), (EventType.ROUGH_ROAD, 0), (EventType.HIGH_G, 0), (EventType.MANUAL_CAPTURE, 0), (EventType.BOOT, 0)], []⟩), [])
      ⟨(1000 : ℚ), (-(3/5) : ℚ), (0 : ℚ), (0 : ℚ), (0 : ℚ), (0 : ℚ), (0 : ℚ)⟩
    = (([⟨(1000 : ℚ), (-(3/5) : ℚ), (0 : ℚ), (0 : ℚ), (0 : ℚ), (0 : ℚ), (0 : ℚ)⟩], ⟨[(EventType.HARD_BRAKE, ⟨(1000 : ℚ), [⟨(1000 : ℚ), (-(3/5) : ℚ), (0 : ℚ), (0 : ℚ), (0 : ℚ), (0 : ℚ), (0 : ℚ)⟩], (3/5 : ℚ), (-(3/5) : ℚ), (0 : ℚ), (0 : ℚ)⟩)], [], [(EventType.HARD_BRAKE, 0), (EventType.BIG_CORNER, 0), (EventType.ROUGH_ROAD, 0), (EventType.HIGH_G, 0), (EventType.MANUAL_CAPTURE, 0), (EventType.BOOT, 0)], [(0 : ℚ)]⟩), []) := by
  norm_num +decide [Shitbox.Detector.step, Shitbox.Detector.process_sample,
    Shitbox.Detector.check_hard_brake, Shitbox.Detector.check_big_corner,
    Shitbox.Detector.check_high_g, Shitbox.Detector.check_rough_road,
    Shitbox.Detector.start_event, Shitbox.Detector.update_event,
    Shitbox.Detector.end_event, Shitbox.Detector.is_on_cooldown,
    Shitbox.Detector.lookupA, Shitbox.Detector.setA, Shitbox.Detector.eraseA,
    Shitbox.Detector.getD, Shitbox.Detector.pyOr, Shitbox.Detector.min_duration_ms,
    Shitbox.Detector.az_window_size, Shitbox.RingBuffer.append,
    Shitbox.RingBuffer.get_window, abs_of_nonneg]

lemma detStepA1 :
    Shitbox.Detector.step {} 3000
      (([⟨(1000 : ℚ), (-(3/5) : ℚ), (0 : ℚ), (0 : ℚ), (0 : ℚ), (0 : ℚ), (0 : ℚ)⟩], ⟨[(EventType.HARD_BRAKE, ⟨(1000 : ℚ), [⟨(1000 : ℚ), (-(3/5) : ℚ), (0 : ℚ), (0 : ℚ), (0 : ℚ), (0 : ℚ), (0 : ℚ)⟩], (3/5 : ℚ), (-(3/5) : ℚ), (0 : ℚ), (0 : ℚ)⟩)], [], [(EventType.HARD_BRAKE, 0), (EventType.BIG_CORNER, 0), (EventType.ROUGH_ROAD, 0), (EventType.HIGH_G, 0), (EventType.MANUAL_CAPTURE, 0), (EventType.BOOT, 0)], [(0 : ℚ)]⟩), [])
      ⟨(10001/10 : ℚ), (-(3/5) : ℚ), (0 : ℚ), (0 : ℚ), (0 : ℚ), (0 : ℚ), (0 : ℚ)⟩
    = (([⟨(1000 : ℚ), (-(3/5) : ℚ), (0 : ℚ), (0 : ℚ), (0 : ℚ), (0 : ℚ), (0 : ℚ)⟩, ⟨(10001/10 : ℚ), (-(3/5) : ℚ), (0 : ℚ), (0 : ℚ), (0 : ℚ), (0 : ℚ), (0 : ℚ)⟩], ⟨[(EventType.HARD_BRAKE, ⟨(1000 : ℚ), [⟨(1000 : ℚ), (-(3/5) : ℚ), (0 : ℚ), (0 : ℚ), (0 : ℚ), (0 : ℚ), (0 : ℚ)⟩, ⟨(10001/10 : ℚ), (-(3/5) : ℚ), (0 : ℚ), (0 : ℚ), (0 : ℚ), (0 : ℚ), (0 : ℚ)⟩], (3/5 : ℚ), (-(3/5) : ℚ), (0 : ℚ), (0 : ℚ)⟩)], [], [(EventType.HARD_BRAKE, 0), (EventType.BIG_CORNER, 0), (EventType.ROUGH_ROAD, 0), (EventType.HIGH_G, 0), (EventType.MANUAL_CAPTURE, 0), (EventType.BOOT, 0)], [(0 : ℚ), (0 : ℚ)]⟩), []) := by
  norm_num +decide [Shitbox.Detector.step, Shitbox.Detector.process_sample,
    Shitbox.Detector.check_hard_brake, Shitbox.Detector.check_big_corner,
    Shitbox.Detector.check_high_g, Shitbox.Detector.check_rough_road,
    Shitbox.Detector.start_event, Shitbox.Detector.update_event,
    Shitbox.Detector.end_event, Shitbox.Detector.is_on_cooldown,
    Shitbox.Detector.lookupA, Shitbox.Detector.setA, Shitbox.Detector.eraseA,
    Shitbox.Detector.getD, Shitbox.Detector.pyOr, Shitbox.Detector.min_duration_ms,
    Shitbox.Detector.az_window_size, Shitbox.RingBuffer.append,
    Shitbox.RingBuffer.get_window, abs_of_nonneg]

lemma detStepA2 :
    Shitbox.Detector.step {} 3000
      (([⟨(1000 : ℚ), (-(3/5) : ℚ), (0 : ℚ), (0 : ℚ), (0 : ℚ), (0 : ℚ), (0 : ℚ)⟩, ⟨(10001/10 : ℚ), (-(3/5) : ℚ), (0 : ℚ), (0 : ℚ), (0 : ℚ), (0 : ℚ), (0 : ℚ)⟩], ⟨[(EventType.HARD_BRAKE, ⟨(1000 : ℚ), [⟨(1000 : ℚ), (-(3/5) : ℚ), (0 : ℚ), (0 : ℚ), (0 : ℚ), (0 : ℚ), (0 : ℚ)⟩, ⟨(10001/10 : ℚ), (-(3/5) : ℚ), (0 : ℚ), (0 : ℚ), (0 : ℚ), (0 : ℚ), (0 : ℚ)⟩], (3/5 : ℚ), (-(3/5) : ℚ), (0 : ℚ), (0 : ℚ)⟩)], [], [(EventType.HARD_BRAKE, 0), (EventType.BIG_CORNER, 0), (EventType.ROUGH_ROAD, 0), (EventType.HIGH_G, 0), (EventType.MANUAL_CAPTURE, 0), (EventType.BOOT, 0)], [(0 : ℚ), (0 : ℚ)]⟩), [])
      ⟨(5001/5 : ℚ), (-(3/5) : ℚ), (0 : ℚ), (0 : ℚ), (0 : ℚ), (0 : ℚ), (0 : ℚ)⟩
    = (([⟨(1000 : ℚ), (-(3/5) : ℚ), (0 : ℚ), (0 : ℚ), (0 : ℚ), (0 : ℚ), (0 : ℚ)⟩, ⟨(10001/10 : ℚ), (-(3/5) : ℚ), (0 : ℚ), (0 : ℚ), (0 : ℚ), (0 : ℚ), (0 : ℚ)⟩, ⟨(5001/5 : ℚ), (-(3/5) : ℚ), (0 : ℚ), (0 : ℚ), (0 : ℚ), (0 : ℚ), (0 : ℚ)⟩], ⟨[(EventType.HARD_BRAKE, ⟨(1000 : ℚ), [⟨(1000 : ℚ), (-(3/5) : ℚ), (0 : ℚ), (0 : ℚ), (0 : ℚ), (0 : ℚ), (0 : ℚ)⟩, ⟨(10001/10 : ℚ), (-(3/5) : ℚ), (0 : ℚ), (0 : ℚ), (0 : ℚ), (0 : ℚ), (0 : ℚ)⟩, ⟨(5001/5 : ℚ), (-(3/5) : ℚ), (0 : ℚ), (0 : ℚ), (0 : ℚ), (0 : ℚ), (0 : ℚ)⟩], (3/5 : ℚ), (-(3/5) : ℚ), (0 : ℚ), (0 : ℚ)⟩)], [], [(EventType.HARD_BRAKE, 0), (EventType.BIG_CORNER, 0), (EventType.ROUGH_ROAD, 0), (EventType.HIGH_G, 0), (EventType.MANUAL_CAPTURE, 0), (EventType.BOOT, 0)], [(0 : ℚ), (0 : ℚ), (0 : ℚ)]⟩), []) := by
  norm_num +decide [Shitbox.Detector.step, Shitbox.Detector.process_sample,
    Shitbox.Detector.check_hard_brake, Shitbox.Detector.check_big_corner,
    Shitbox.Detector.check_high_g, Shitbox.Detector.check_rough_road,
    Shitbox.Detector.start_event, Shitbox.Detector.update_event,
    Shitbox.Detector.end_event, Shitbox.Detector.is_on_cooldown,
    Shitbox.Detector.lookupA, Shitbox.Detector.setA, Shitbox.Detector.eraseA,
    Shitbox.Detector.getD, Shitbox.Detector.pyOr, Shitbox.Detector.min_duration_ms,
    Shitbox.Detector.az_window_size, Shitbox.RingBuffer.append,
    Shitbox.RingBuffer.get_window, abs_of_nonneg]

lemma detStepA3 :
    Shitbox.Detector.step {} 3000
      (([⟨(1000 : ℚ), (-(3/5) : ℚ), (0 : ℚ), (0 : ℚ), (0 : ℚ), (0 : ℚ), (0 : ℚ)⟩, ⟨(10001/10 : ℚ), (-(3/5) : ℚ), (0 : ℚ), (0 : ℚ), (0 : ℚ), (0 : ℚ), (0 : ℚ)⟩, ⟨(5001/5 : ℚ), (-(3/5) : ℚ), (0 : ℚ), (0 : ℚ), (0 : ℚ), (0 : ℚ), (0 : ℚ)⟩], ⟨[(EventType.HARD_BRAKE, ⟨(1000 : ℚ), [⟨(1000 : ℚ), (-(3/5) : ℚ), (0 : ℚ), (0 : ℚ), (0 : ℚ), (0 : ℚ), (0 : ℚ)⟩, ⟨(10001/10 : ℚ), (-(3/5) : ℚ), (0 : ℚ), (0 : ℚ), (0 : ℚ), (0 : ℚ), (0 : ℚ)⟩, ⟨(5001/5 : ℚ), (-(3/5) : ℚ), (0 : ℚ), (0 : ℚ), (0 : ℚ), (0 : ℚ), (0 : ℚ)⟩], (3/5 : ℚ), (-(3/5) : ℚ), (0 : ℚ), (0 : ℚ)⟩)], [], [(EventType.HARD_BRAKE, 0), (EventType.BIG_CORNER, 0), (EventType.ROUGH_ROAD, 0), (EventType.HIGH_G, 0), (EventType.MANUAL_CAPTURE, 0), (EventType.BOOT, 0)], [(0 : ℚ), (0 : ℚ), (0 : ℚ)]⟩), [])
      ⟨(10003/10 : ℚ), (0 : ℚ), (0 : ℚ), (0 : ℚ), (0 : ℚ), (0 : ℚ), (0 : ℚ)⟩
    = (([⟨(1000 : ℚ), (-(3/5) : ℚ), (0 : ℚ), (0 : ℚ), (0 : ℚ), (0 : ℚ), (0 : ℚ)⟩, ⟨(10001/10 : ℚ), (-(3/5) : ℚ), (0 : ℚ), (0 : ℚ), (0 : ℚ), (0 : ℚ), (0 : ℚ)⟩, ⟨(5001/5 : ℚ), (-(3/5) : ℚ), (0 : ℚ), (0 : ℚ), (0 : ℚ), (0 : ℚ), (0 : ℚ)⟩, ⟨(10003/10 : ℚ), (0 : ℚ), (0 : ℚ), (0 : ℚ), (0 : ℚ), (0 : ℚ), (0 : ℚ)⟩], ⟨[], [(EventType.HARD_BRAKE, (10003/10 : ℚ))], [(EventType.HARD_BRAKE, 1), (EventType.BIG_CORNER, 0), (EventType.ROUGH_ROAD, 0), (EventType.HIGH_G, 0), (EventType.MANUAL_CAPTURE, 0), (EventType.BOOT, 0)], [(0 : ℚ), (0 : ℚ), (0 : ℚ), (0 : ℚ)]⟩), [⟨EventType.HARD_BRAKE, (1000 : ℚ), (10003/10 : ℚ), (3/5 : ℚ), (-(3/5) : ℚ), (0 : ℚ), (0 : ℚ), [⟨(1000 : ℚ), (-(3/5) : ℚ), (0 : ℚ), (0 : ℚ), (0 : ℚ), (0 : ℚ), (0 : ℚ)⟩, ⟨(10001/10 : ℚ), (-(3/5) : ℚ), (0 : ℚ), (0 : ℚ), (0 : ℚ), (0 : ℚ), (0 : ℚ)⟩, ⟨(5001/5 : ℚ), (-(3/5) : ℚ), (0 : ℚ), (0 : ℚ), (0 : ℚ), (0 : ℚ), (0 : ℚ)⟩, ⟨(10003/10 : ℚ), (0 : ℚ), (0 : ℚ), (0 : ℚ), (0 : ℚ), (0 : ℚ), (0 : ℚ)⟩]⟩]) := by
  norm_num +decide [Shitbox.Detector.step, Shitbox.Detector.process_sample,
    Shitbox.Detector.check_hard_brake, Shitbox.Detector.check_big_corner,
    Shitbox.Detector.check_high_g, Shitbox.Detector.check_rough_road,
    Shitbox.Detector.start_event, Shitbox.Detector.update_event,
    Shitbox.Detector.end_event, Shitbox.Detector.is_on_cooldown,
    Shitbox.Detector.lookupA, Shitbox.Detector.setA, Shitbox.Detector.eraseA,
    Shitbox.Detector.getD, Shitbox.Detector.pyOr, Shitbox.Detector.min_duration_ms,
    Shitbox.Detector.az_window_size, Shitbox.RingBuffer.append,
    Shitbox.RingBuffer.get_window, abs_of_nonneg]

lemma detStepB0 :
    Shitbox.Detector.step {} 3000
      (([], ⟨[], [], [(EventType.HARD_BRAKE, 0), (EventType.BIG_CORNER, 0), (EventType.ROUGH_ROAD, 0), (EventType.HIGH_G, 0), (EventType.MANUAL_CAPTURE, 0), (EventType.BOOT, 0)], []⟩), [])
      ⟨(1000 : ℚ), (-(3/5) : ℚ), (0 : ℚ), (0 : ℚ), (0 : ℚ), (0 : ℚ), (0 : ℚ)⟩
    = (([⟨(1000 : ℚ), (-(3/5) : ℚ), (0 : ℚ), (0 : ℚ), (0 : ℚ), (0 : ℚ), (0 : ℚ)⟩], ⟨[(EventType.HARD_BRAKE, ⟨(1000 : ℚ), [⟨(1000 : ℚ), (-(3/5) : ℚ), (0 : ℚ), (0 : ℚ), (0 : ℚ), (0 : ℚ), (0 : ℚ)⟩], (3/5 : ℚ), (-(3/5) : ℚ), (0 : ℚ), (0 : ℚ)⟩)], [], [(EventType.HARD_BRAKE, 0), (EventType.BIG_CORNER, 0), (EventType.ROUGH_ROAD, 0), (EventType.HIGH_G, 0), (EventType.MANUAL_CAPTURE, 0), (EventType.BOOT, 0)], [(0 : ℚ)]⟩), []) := by
  norm_num +decide [Shitbox.Detector.step, Shitbox.Detector.process_sample,
    Shitbox.Detector.check_hard_brake, Shitbox.Detector.check_big_corner,
    Shitbox.Detector.check_high_g, Shitbox.Detector.check_rough_road,
    Shitbox.Detector.start_event, Shitbox.Detector.update_event,
    Shitbox.Detector.end_event, Shitbox.Detector.is_on_cooldown,
    Shitbox.Detector.lookupA, Shitbox.Detector.setA, Shitbox.Detector.eraseA,
    Shitbox.Detector.getD, Shitbox.Detector.pyOr, Shitbox.Detector.min_duration_ms,
    Shitbox.Detector.az_window_size, Shitbox.RingBuffer.append,
    Shitbox.RingBuffer.get_window, abs_of_nonneg]

lemma detStepB1 :
    Shitbox.Detector.step {} 3000
      (([⟨(1000 : ℚ), (-(3/5) : ℚ), (0 : ℚ), (0 : ℚ), (0 : ℚ), (0 : ℚ), (0 : ℚ)⟩], ⟨[(EventType.HARD_BRAKE, ⟨(1000 : ℚ), [⟨(1000 : ℚ), (-(3/5) : ℚ), (0 : ℚ), (0 : ℚ), (0 : ℚ), (0 : ℚ), (0 : ℚ)⟩], (3/5 : ℚ), (-(3/5) : ℚ), (0 : ℚ), (0 : ℚ)⟩)], [], [(EventType.HARD_BRAKE, 0), (EventType.BIG_CORNER, 0), (EventType.ROUGH_ROAD, 0), (EventType.HIGH_G, 0), (EventType.MANUAL_CAPTURE, 0), (EventType.BOOT, 0)], [(0 : ℚ)]⟩), [])
      ⟨(20001/20 : ℚ), (-(3/5) : ℚ), (0 : ℚ), (0 : ℚ), (0 : ℚ), (0 : ℚ), (0 : ℚ)⟩
    = (([⟨(1000 : ℚ), (-(3/5) : ℚ), (0 : ℚ), (0 : ℚ), (0 : ℚ), (0 : ℚ), (0 : ℚ)⟩, ⟨(20001/20 : ℚ), (-(3/5) : ℚ), (0 : ℚ), (0 : ℚ), (0 : ℚ), (0 : ℚ), (0 : ℚ)⟩], ⟨[(EventType.HARD_BRAKE, ⟨(1000 : ℚ), [⟨(1000 : ℚ), (-(3/5) : ℚ), (0 : ℚ), (0 : ℚ), (0 : ℚ), (0 : ℚ), (0 : ℚ)⟩, ⟨(20001/20 : ℚ), (-(3/5) : ℚ), (0 : ℚ), (0 : ℚ), (0 : ℚ), (0 : ℚ), (0 : ℚ)⟩], (3/5 : ℚ), (-(3/5) : ℚ), (0 : ℚ), (0 : ℚ)⟩)], [], [(EventType.HARD_BRAKE, 0), (EventType.BIG_CORNER, 0), (EventType.ROUGH_ROAD, 0), (EventType.HIGH_G, 0), (EventType.MANUAL_CAPTURE, 0), (EventType.BOOT, 0)], [(0 : ℚ), (0 : ℚ)]⟩), []) := by
  norm_num +decide [Shitbox.Detector.step, Shitbox.Detector.process_sample,
    Shitbox.Detector.check_hard_brake, Shitbox.Detector.check_big_corner,
    Shitbox.Detector.check_high_g, Shitbox.Detector.check_rough_road,
    Shitbox.Detector.start_event, Shitbox.Detector.update_event,
    Shitbox.Detector.end_event, Shitbox.Detector.is_on_cooldown,
    Shitbox.Detector.lookupA, Shitbox.Detector.setA, Shitbox.Detector.eraseA,
    Shitbox.Detector.getD, Shitbox.Detector.pyOr, Shitbox.Detector.min_duration_ms,
    Shitbox.Detector.az_window_size, Shitbox.RingBuffer.append,
    Shitbox.RingBuffer.get_window, abs_of_nonneg]

lemma detStepB2 :
    Shitbox.Detector.step {} 3000
      (([⟨(1000 : ℚ), (-(3/5) : ℚ), (0 : ℚ), (0 : ℚ), (0 : ℚ), (0 : ℚ), (0 : ℚ)⟩, ⟨(20001/20 : ℚ), (-(3/5) : ℚ), (0 : ℚ), (0 : ℚ), (0 : ℚ), (0 : ℚ), (0 : ℚ)⟩], ⟨[(EventType.HARD_BRAKE, ⟨(1000 : ℚ), [⟨(1000 : ℚ), (-(3/5) : ℚ), (0 : ℚ), (0 : ℚ), (0 : ℚ), (0 : ℚ), (0 : ℚ)⟩, ⟨(20001/20 : ℚ), (-(3/5) : ℚ), (0 : ℚ), (0 : ℚ), (0 : ℚ), (0 : ℚ), (0 : ℚ)⟩], (3/5 : ℚ), (-(3/5) : ℚ), (0 : ℚ), (0 : ℚ)⟩)], [], [(EventType.HARD_BRAKE, 0), (EventType.BIG_CORNER, 0), (EventType.ROUGH_ROAD, 0), (EventType.HIGH_G, 0), (EventType.MANUAL_CAPTURE, 0), (EventType.BOOT, 0)], [(0 : ℚ), (0 : ℚ)]⟩), [])
      ⟨(10001/10 : ℚ), (0 : ℚ), (0 : ℚ), (0 : ℚ), (0 : ℚ), (0 : ℚ), (0 : ℚ)⟩
    = (([⟨(1000 : ℚ), (-(3/5) : ℚ), (0 : ℚ), (0 : ℚ), (0 : ℚ), (0 : ℚ), (0 : ℚ)⟩, ⟨(20001/20 : ℚ), (-(3/5) : ℚ), (0 : ℚ), (0 : ℚ), (0 : ℚ), (0 : ℚ), (0 : ℚ)⟩, ⟨(10001/10 : ℚ), (0 : ℚ), (0 : ℚ), (0 : ℚ), (0 : ℚ), (0 : ℚ), (0 : ℚ)⟩], ⟨[], [], [(EventType.HARD_BRAKE, 0), (EventType.BIG_CORNER, 0), (EventType.ROUGH_ROAD, 0), (EventType.HIGH_G, 0), (EventType.MANUAL_CAPTURE, 0), (EventType.BOOT, 0)], [(0 : ℚ), (0 : ℚ), (0 : ℚ)]⟩), []) := by
  norm_num +decide [Shitbox.Detector.step, Shitbox.Detector.process_sample,
    Shitbox.Detector.check_hard_brake, Shitbox.Detector.check_big_corner,
    Shitbox.Detector.check_high_g, Shitbox.Detector.check_rough_road,
    Shitbox.Detector.start_event, Shitbox.Detector.update_event,
    Shitbox.Detector.end_event, Shitbox.Detector.is_on_cooldown,
    Shitbox.Detector.lookupA, Shitbox.Detector.setA, Shitbox.Detector.eraseA,
    Shitbox.Detector.getD, Shitbox.Detector.pyOr, Shitbox.Detector.min_duration_ms,
    Shitbox.Detector.az_window_size, Shitbox.RingBuffer.append,
    Shitbox.RingBuffer.get_window, abs_of_nonneg]

lemma detStepC4 :
    Shitbox.Detector.step {} 3000
      (([⟨(1000 : ℚ), (-(3/5) : ℚ), (0 : ℚ), (0 : ℚ), (0 : ℚ), (0 : ℚ), (0 : ℚ)⟩, ⟨(10001/10 : ℚ), (-(3/5) : ℚ), (0 : ℚ), (0 : ℚ), (0 : ℚ), (0 : ℚ), (0 : ℚ)⟩, ⟨(5001/5 : ℚ), (-(3/5) : ℚ), (0 : ℚ), (0 : ℚ), (0 : ℚ), (0 : ℚ), (0 : ℚ)⟩, ⟨(10003/10 : ℚ), (0 : ℚ), (0 : ℚ), (0 : ℚ), (0 : ℚ), (0 : ℚ), (0 : ℚ)⟩], ⟨[], [(EventType.HARD_BRAKE, (10003/10 : ℚ))], [(EventType.HARD_BRAKE, 1), (EventType.BIG_CORNER, 0), (EventType.ROUGH_ROAD, 0), (EventType.HIGH_G, 0), (EventType.MANUAL_CAPTURE, 0), (EventType.BOOT, 0)], [(0 : ℚ), (0 : ℚ), (0 : ℚ), (0 : ℚ)]⟩), [⟨EventType.HARD_BRAKE, (1000 : ℚ), (10003/10 : ℚ), (3/5 : ℚ), (-(3/5) : ℚ), (0 : ℚ), (0 : ℚ), [⟨(1000 : ℚ), (-(3/5) : ℚ), (0 : ℚ), (0 : ℚ), (0 : ℚ), (0 : ℚ), (0 : ℚ)⟩, ⟨(10001/10 : ℚ), (-(3/5) : ℚ), (0 : ℚ), (0 : ℚ), (0 : ℚ), (0 : ℚ), (0 : ℚ)⟩, ⟨(5001/5 : ℚ), (-(3/5) : ℚ), (0 : ℚ), (0 : ℚ), (0 : ℚ), (0 : ℚ), (0 : ℚ)⟩, ⟨(10003/10 : ℚ), (0 : ℚ), (0 : ℚ), (0 : ℚ), (0 : ℚ), (0 : ℚ), (0 : ℚ)⟩]⟩])
      ⟨(1002 : ℚ), (-(3/5) : ℚ), (0 : ℚ), (0 : ℚ), (0 : ℚ), (0 : ℚ), (0 : ℚ)⟩
    = (([⟨(1000 : ℚ), (-(3/5) : ℚ), (0 : ℚ), (0 : ℚ), (0 : ℚ), (0 : ℚ), (0 : ℚ)⟩, ⟨(10001/10 : ℚ), (-(3/5) : ℚ), (0 : ℚ), (0 : ℚ), (0 : ℚ), (0 : ℚ), (0 : ℚ)⟩, ⟨(5001/5 : ℚ), (-(3/5) : ℚ), (0 : ℚ), (0 : ℚ), (0 : ℚ), (0 : ℚ), (0 : ℚ)⟩, ⟨(10003/10 : ℚ), (0 : ℚ), (0 : ℚ), (0 : ℚ), (0 : ℚ), (0 : ℚ), (0 : ℚ)⟩, ⟨(1002 : ℚ), (-(3/5) : ℚ), (0 : ℚ), (0 : ℚ), (0 : ℚ), (0 : ℚ), (0 : ℚ)⟩], ⟨[], [(EventType.HARD_BRAKE, (10003/10 : ℚ))], [(EventType.HARD_BRAKE, 1), (EventType.BIG_CORNER, 0), (EventType.ROUGH_ROAD, 0), (EventType.HIGH_G, 0), (EventType.MANUAL_CAPTURE, 0), (EventType.BOOT, 0)], [(0 : ℚ), (0 : ℚ), (0 : ℚ), (0 : ℚ), (0 : ℚ)]⟩), [⟨EventType.HARD_BRAKE, (1000 : ℚ), (10003/10 : ℚ), (3/5 : ℚ), (-(3/5) : ℚ), (0 : ℚ), (0 : ℚ), [⟨(1000 : ℚ), (-(3/5) : ℚ), (0 : ℚ), (0 : ℚ), (0 : ℚ), (0 : ℚ), (0 : ℚ)⟩, ⟨(10001/10 : ℚ), (-(3/5) : ℚ), (0 : ℚ), (0 : ℚ), (0 : ℚ), (0 : ℚ), (0 : ℚ)⟩, ⟨(5001/5 : ℚ), (-(3/5) : ℚ), (0 : ℚ), (0 : ℚ), (0 : ℚ), (0 : ℚ), (0 : ℚ)⟩, ⟨(10003/10 : ℚ), (0 : ℚ), (0 : ℚ), (0 : ℚ), (0 : ℚ), (0 : ℚ), (0 : ℚ)⟩]⟩]) := by
  norm_num +decide [Shitbox.Detector.step, Shitbox.Detector.process_sample,
    Shitbox.Detector.check_hard_brake, Shitbox.Detector.check_big_corner,
    Shitbox.Detector.check_high_g, Shitbox.Detector.check_rough_road,
    Shitbox.Detector.start_event, Shitbox.Detector.update_event,
    Shitbox.Detector.end_event, Shitbox.Detector.is_on_cooldown,
    Shitbox.Detector.lookupA, Shitbox.Detector.setA, Shitbox.Detector.eraseA,
    Shitbox.Detector.getD, Shitbox.Detector.pyOr, Shitbox.Detector.min_duration_ms,
    Shitbox.Detector.az_window_size, Shitbox.RingBuffer.append,
    Shitbox.RingBuffer.get_window, abs_of_nonneg]

lemma detStepC5 :
    Shitbox.Detector.step {} 3000
      (([⟨(1000 : ℚ), (-(3/5) : ℚ), (0 : ℚ), (0 : ℚ), (0 : ℚ), (0 : ℚ), (0 : ℚ)⟩, ⟨(10001/10 : ℚ), (-(3/5) : ℚ), (0 : ℚ), (0 : ℚ), (0 : ℚ), (0 : ℚ), (0 : ℚ)⟩, ⟨(5001/5 : ℚ), (-(3/5) : ℚ), (0 : ℚ), (0 : ℚ), (0 : ℚ), (0 : ℚ), (0 : ℚ)⟩, ⟨(10003/10 : ℚ), (0 : ℚ), (0 : ℚ), (0 : ℚ), (0 : ℚ), (0 : ℚ), (0 : ℚ)⟩, ⟨(1002 : ℚ), (-(3/5) : ℚ), (0 : ℚ), (0 : ℚ), (0 : ℚ), (0 : ℚ), (0 : ℚ)⟩], ⟨[], [(EventType.HARD_BRAKE, (10003/10 : ℚ))], [(EventType.HARD_BRAKE, 1), (EventType.BIG_CORNER, 0), (EventType.ROUGH_ROAD, 0), (EventType.HIGH_G, 0), (EventType.MANUAL_CAPTURE, 0), (EventType.BOOT, 0)], [(0 : ℚ), (0 : ℚ), (0 : ℚ), (0 : ℚ), (0 : ℚ)]⟩), [⟨EventType.HARD_BRAKE, (1000 : ℚ), (10003/10 : ℚ), (3/5 : ℚ), (-(3/5) : ℚ), (0 : ℚ), (0 : ℚ), [⟨(1000 : ℚ), (-(3/5) : ℚ), (0 : ℚ), (0 : ℚ), (0 : ℚ), (0 : ℚ), (0 : ℚ)⟩, ⟨(10001/10 : ℚ), (-(3/5) : ℚ), (0 : ℚ), (0 : ℚ), (0 : ℚ), (0 : ℚ), (0 : ℚ)⟩, ⟨(5001/5 : ℚ), (-(3/5) : ℚ), (0 : ℚ), (0 : ℚ), (0 : ℚ), (0 : ℚ), (0 : ℚ)⟩, ⟨(10003/10 : ℚ), (0 : ℚ), (0 : ℚ), (0 : ℚ), (0 : ℚ), (0 : ℚ), (0 : ℚ)⟩]⟩])
      ⟨(10021/10 : ℚ), (-(3/5) : ℚ), (0 : ℚ), (0 : ℚ), (0 : ℚ), (0 : ℚ), (0 : ℚ)⟩
    = (([⟨(1000 : ℚ), (-(3/5) : ℚ), (0 : ℚ), (0 : ℚ), (0 : ℚ), (0 : ℚ), (0 : ℚ)⟩, ⟨(10001/10 : ℚ), (-(3/5) : ℚ), (0 : ℚ), (0 : ℚ), (0 : ℚ), (0 : ℚ), (0 : ℚ)⟩, ⟨(5001/5 : ℚ), (-(3/5) : ℚ), (0 : ℚ), (0 : ℚ), (0 : ℚ), (0 : ℚ), (0 : ℚ)⟩, ⟨(10003/10 : ℚ), (0 : ℚ), (0 : ℚ), (0 : ℚ), (0 : ℚ), (0 : ℚ), (0 : ℚ)⟩, ⟨(1002 : ℚ), (-(3/5) : ℚ), (0 : ℚ), (0 : ℚ), (0 : ℚ), (0 : ℚ), (0 : ℚ)⟩, ⟨(10021/10 : ℚ), (-(3/5) : ℚ), (0 : ℚ), (0 : ℚ), (0 : ℚ), (0 : ℚ), (0 : ℚ)⟩], ⟨[], [(EventType.HARD_BRAKE, (10003/10 : ℚ))], [(EventType.HARD_BRAKE, 1), (EventType.BIG_CORNER, 0), (EventType.ROUGH_ROAD, 0), (EventType.HIGH_G, 0), (EventType.MANUAL_CAPTURE, 0), (EventType.BOOT, 0)], [(0 : ℚ), (0 : ℚ), (0 : ℚ), (0 : ℚ), (0 : ℚ), (0 : ℚ)]⟩), [⟨EventType.HARD_BRAKE, (1000 : ℚ), (10003/10 : ℚ), (3/5 : ℚ), (-(3/5) : ℚ), (0 : ℚ), (0 : ℚ), [⟨(1000 : ℚ), (-(3/5) : ℚ), (0 : ℚ), (0 : ℚ), (0 : ℚ), (0 : ℚ), (0 : ℚ)⟩, ⟨(10001/10 : ℚ), (-(3/5) : ℚ), (0 : ℚ), (0 : ℚ), (0 : ℚ), (0 : ℚ), (0 : ℚ)⟩, ⟨(5001/5 : ℚ), (-(3/5) : ℚ), (0 : ℚ), (0 : ℚ), (0 : ℚ), (0 : ℚ), (0 : ℚ)⟩, ⟨(10003/10 : ℚ), (0 : ℚ), (0 : ℚ), (0 : ℚ), (0 : ℚ), (0 : ℚ), (0 : ℚ)⟩]⟩]) := by
  norm_num +decide [Shitbox.Detector.step, Shitbox.Detector.process_sample,
    Shitbox.Detector.check_hard_brake, Shitbox.Detector.check_big_corner,
    Shitbox.Detector.check_high_g, Shitbox.Detector.check_rough_road,
    Shitbox.Detector.start_event, Shitbox.Detector.update_event,
    Shitbox.Detector.end_event, Shitbox.Detector.is_on_cooldown,
    Shitbox.Detector.lookupA, Shitbox.Detector.setA, Shitbox.Detector.eraseA,
    Shitbox.Detector.getD, Shitbox.Detector.pyOr, Shitbox.Detector.min_duration_ms,
    Shitbox.Detector.az_window_size, Shitbox.RingBuffer.append,
    Shitbox.RingBuffer.get_window, abs_of_nonneg]

lemma detStepC6 :
    Shitbox.Detector.step {} 3000
      (([⟨(1000 : ℚ), (-(3/5) : ℚ), (0 : ℚ), (0 : ℚ), (0 : ℚ), (0 : ℚ), (0 : ℚ)⟩, ⟨(10001/10 : ℚ), (-(3/5) : ℚ), (0 : ℚ), (0 : ℚ), (0 : ℚ), (0 : ℚ), (0 : ℚ)⟩, ⟨(5001/5 : ℚ), (-(3/5) : ℚ), (0 : ℚ), (0 : ℚ), (0 : ℚ), (0 : ℚ), (0 : ℚ)⟩, ⟨(10003/10 : ℚ), (0 : ℚ), (0 : ℚ), (0 : ℚ), (0 : ℚ), (0 : ℚ), (0 : ℚ)⟩, ⟨(1002 : ℚ), (-(3/5) : ℚ), (0 : ℚ), (0 : ℚ), (0 : ℚ), (0 : ℚ), (0 : ℚ)⟩, ⟨(10021/10 : ℚ), (-(3/5) : ℚ), (0 : ℚ), (0 : ℚ), (0 : ℚ), (0 : ℚ), (0 : ℚ)⟩], ⟨[], [(EventType.HARD_BRAKE, (10003/10 : ℚ))], [(EventType.HARD_BRAKE, 1), (EventType.BIG_CORNER, 0), (EventType.ROUGH_ROAD, 0), (EventType.HIGH_G, 0), (EventType.MANUAL_CAPTURE, 0), (EventType.BOOT, 0)], [(0 : ℚ), (0 : ℚ), (0 : ℚ), (0 : ℚ), (0 : ℚ), (0 : ℚ)]⟩), [⟨EventType.HARD_BRAKE, (1000 : ℚ), (10003/10 : ℚ), (3/5 : ℚ), (-(3/5) : ℚ), (0 : ℚ), (0 : ℚ), [⟨(1000 : ℚ), (-(3/5) : ℚ), (0 : ℚ), (0 : ℚ), (0 : ℚ), (0 : ℚ), (0 : ℚ)⟩, ⟨(10001/10 : ℚ), (-(3/5) : ℚ), (0 : ℚ), (0 : ℚ), (0 : ℚ), (0 : ℚ), (0 : ℚ)⟩, ⟨(5001/5 : ℚ), (-(3/5) : ℚ), (0 : ℚ), (0 : ℚ), (0 : ℚ), (0 : ℚ), (0 : ℚ)⟩, ⟨(10003/10 : ℚ), (0 : ℚ), (0 : ℚ), (0 : ℚ), (0 : ℚ), (0 : ℚ), (0 : ℚ)⟩]⟩])
      ⟨(5011/5 : ℚ), (-(3/5) : ℚ), (0 : ℚ), (0 : ℚ), (0 : ℚ), (0 : ℚ), (0 : ℚ)⟩
    = (([⟨(1000 : ℚ), (-(3/5) : ℚ), (0 : ℚ), (0 : ℚ), (0 : ℚ), (0 : ℚ), (0 : ℚ)⟩, ⟨(10001/10 : ℚ), (-(3/5) : ℚ), (0 : ℚ), (0 : ℚ), (0 : ℚ), (0 : ℚ), (0 : ℚ)⟩, ⟨(5001/5 : ℚ), (-(3/5) : ℚ), (0 : ℚ), (0 : ℚ), (0 : ℚ), (0 : ℚ), (0 : ℚ)⟩, ⟨(10003/10 : ℚ), (0 : ℚ), (0 : ℚ), (0 : ℚ), (0 : ℚ), (0 : ℚ), (0 : ℚ)⟩, ⟨(1002 : ℚ), (-(3/5) : ℚ), (0 : ℚ), (0 : ℚ), (0 : ℚ), (0 : ℚ), (0 : ℚ)⟩, ⟨(10021/10 : ℚ), (-(3/5) : ℚ), (0 : ℚ), (0 : ℚ), (0 : ℚ), (0 : ℚ), (0 : ℚ)⟩, ⟨(5011/5 : ℚ), (-(3/5) : ℚ), (0 : ℚ), (0 : ℚ), (0 : ℚ), (0 : ℚ), (0 : ℚ)⟩], ⟨[], [(EventType.HARD_BRAKE, (10003/10 : ℚ))], [(EventType.HARD_BRAKE, 1), (EventType.BIG_CORNER, 0), (EventType.ROUGH_ROAD, 0), (EventType.HIGH_G, 0), (EventType.MANUAL_CAPTURE, 0), (EventType.BOOT, 0)], [(0 : ℚ), (0 : ℚ), (0 : ℚ), (0 : ℚ), (0 : ℚ), (0 : ℚ), (0 : ℚ)]⟩), [⟨EventType.HARD_BRAKE, (1000 : ℚ), (10003/10 : ℚ), (3/5 : ℚ), (-(3/5) : ℚ), (0 : ℚ), (0 : ℚ), [⟨(1000 : ℚ), (-(3/5) : ℚ), (0 : ℚ), (0 : ℚ), (0 : ℚ), (0 : ℚ), (0 : ℚ)⟩, ⟨(10001/10 : ℚ), (-(3/5) : ℚ), (0 : ℚ), (0 : ℚ), (0 : ℚ), (0 : ℚ), (0 : ℚ)⟩, ⟨(5001/5 : ℚ), (-(3/5) : ℚ), (0 : ℚ), (0 : ℚ), (0 : ℚ), (0 : ℚ), (0 : ℚ)⟩, ⟨(10003/10 : ℚ), (0 : ℚ), (0 : ℚ), (0 : ℚ), (0 : ℚ), (0 : ℚ), (0 : ℚ)⟩]⟩]) := by
  norm_num +decide [Shitbox.Detector.step, Shitbox.Detector.process_sample,
    Shitbox.Detector.check_hard_brake, Shitbox.Detector.check_big_corner,
    Shitbox.Detector.check_high_g, Shitbox.Detector.check_rough_road,
    Shitbox.Detector.start_event, Shitbox.Detector.update_event,
    Shitbox.Detector.end_event, Shitbox.Detector.is_on_cooldown,
    Shitbox.Detector.lookupA, Shitbox.Detector.setA, Shitbox.Detector.eraseA,
    Shitbox.Detector.getD, Shitbox.Detector.pyOr, Shitbox.Detector.min_duration_ms,
    Shitbox.Detector.az_window_size, Shitbox.RingBuffer.append,
    Shitbox.RingBuffer.get_window, abs_of_nonneg]

lemma detStepC7 :
    Shitbox.Detector.step {} 3000
      (([⟨(1000 : ℚ), (-(3/5) : ℚ), (0 : ℚ), (0 : ℚ), (0 : ℚ), (0 : ℚ), (0 : ℚ)⟩, ⟨(10001/10 : ℚ), (-(3/5) : ℚ), (0 : ℚ), (0 : ℚ), (0 : ℚ), (0 : ℚ), (0 : ℚ)⟩, ⟨(5001/5 : ℚ), (-(3/5) : ℚ), (0 : ℚ), (0 : ℚ), (0 : ℚ), (0 : ℚ), (0 : ℚ)⟩, ⟨(10003/10 : ℚ), (0 : ℚ), (0 : ℚ), (0 : ℚ), (0 : ℚ), (0 : ℚ), (0 : ℚ)⟩, ⟨(1002 : ℚ), (-(3/5) : ℚ), (0 : ℚ), (0 : ℚ), (0 : ℚ), (0 : ℚ), (0 : ℚ)⟩, ⟨(10021/10 : ℚ), (-(3/5) : ℚ), (0 : ℚ), (0 : ℚ), (0 : ℚ), (0 : ℚ), (0 : ℚ)⟩, ⟨(5011/5 : ℚ), (-(3/5) : ℚ), (0 : ℚ), (0 : ℚ), (0 : ℚ), (0 : ℚ), (0 : ℚ)⟩], ⟨[], [(EventType.HARD_BRAKE, (10003/10 : ℚ))], [(EventType.HARD_BRAKE, 1), (EventType.BIG_CORNER, 0), (EventType.ROUGH_ROAD, 0), (EventType.HIGH_G, 0), (EventType.MANUAL_CAPTURE, 0), (EventType.BOOT, 0)], [(0 : ℚ), (0 : ℚ), (0 : ℚ), (0 : ℚ), (0 : ℚ), (0 : ℚ), (0 : ℚ)]⟩), [⟨EventType.HARD_BRAKE, (1000 : ℚ), (10003/10 : ℚ), (3/5 : ℚ), (-(3/5) : ℚ), (0 : ℚ), (0 : ℚ), [⟨(1000 : ℚ), (-(3/5) : ℚ), (0 : ℚ), (0 : ℚ), (0 : ℚ), (0 : ℚ), (0 : ℚ)⟩, ⟨(10001/10 : ℚ), (-(3/5) : ℚ), (0 : ℚ), (0 : ℚ), (0 : ℚ), (0 : ℚ), (0 : ℚ)⟩, ⟨(5001/5 : ℚ), (-(3/5) : ℚ), (0 : ℚ), (0 : ℚ), (0 : ℚ), (0 : ℚ), (0 : ℚ)⟩, ⟨(10003/10 : ℚ), (0 : ℚ), (0 : ℚ), (0 : ℚ), (0 : ℚ), (0 : ℚ), (0 : ℚ)⟩]⟩])
      ⟨(10023/10 : ℚ), (0 : ℚ), (0 : ℚ), (0 : ℚ), (0 : ℚ), (0 : ℚ), (0 : ℚ)⟩
    = (([⟨(1000 : ℚ), (-(3/5) : ℚ), (0 : ℚ), (0 : ℚ), (0 : ℚ), (0 : ℚ), (0 : ℚ)⟩, ⟨(10001/10 : ℚ), (-(3/5) : ℚ), (0 : ℚ), (0 : ℚ), (0 : ℚ), (0 : ℚ), (0 : ℚ)⟩, ⟨(5001/5 : ℚ), (-(3/5) : ℚ), (0 : ℚ), (0 : ℚ), (0 : ℚ), (0 : ℚ), (0 : ℚ)⟩, ⟨(10003/10 : ℚ), (0 : ℚ), (0 : ℚ), (0 : ℚ), (0 : ℚ), (0 : ℚ), (0 : ℚ)⟩, ⟨(1002 : ℚ), (-(3/5) : ℚ), (0 : ℚ), (0 : ℚ), (0 : ℚ), (0 : ℚ), (0 : ℚ)⟩, ⟨(10021/10 : ℚ), (-(3/5) : ℚ), (0 : ℚ), (0 : ℚ), (0 : ℚ), (0 : ℚ), (0 : ℚ)⟩, ⟨(5011/5 : ℚ), (-(3/5) : ℚ), (0 : ℚ), (0 : ℚ), (0 : ℚ), (0 : ℚ), (0 : ℚ)⟩, ⟨(10023/10 : ℚ), (0 : ℚ), (0 : ℚ), (0 : ℚ), (0 : ℚ), (0 : ℚ), (0 : ℚ)⟩], ⟨[], [(EventType.HARD_BRAKE, (10003/10 : ℚ))], [(EventType.HARD_BRAKE, 1), (EventType.BIG_CORNER, 0), (EventType.ROUGH_ROAD, 0), (EventType.HIGH_G, 0), (EventType.MANUAL_CAPTURE, 0), (EventType.BOOT, 0)], [(0 : ℚ), (0 : ℚ), (0 : ℚ), (0 : ℚ), (0 : ℚ), (0 : ℚ), (0 : ℚ), (0 : ℚ)]⟩), [⟨EventType.HARD_BRAKE, (1000 : ℚ), (10003/10 : ℚ), (3/5 : ℚ), (-(3/5) : ℚ), (0 : ℚ), (0 : ℚ), [⟨(1000 : ℚ), (-(3/5) : ℚ), (0 : ℚ), (0 : ℚ), (0 : ℚ), (0 : ℚ), (0 : ℚ)⟩, ⟨(10001/10 : ℚ), (-(3/5) : ℚ), (0 : ℚ), (0 : ℚ), (0 : ℚ), (0 : ℚ), (0 : ℚ)⟩, ⟨(5001/5 : ℚ), (-(3/5) : ℚ), (0 : ℚ), (0 : ℚ), (0 : ℚ), (0 : ℚ), (0 : ℚ)⟩, ⟨(10003/10 : ℚ), (0 : ℚ), (0 : ℚ), (0 : ℚ), (0 : ℚ), (0 : ℚ), (0 : ℚ)⟩]⟩]) := by
  norm_num +decide [Shitbox.Detector.step, Shitbox.Detector.process_sample,
    Shitbox.Detector.check_hard_brake, Shitbox.Detector.check_big_corner,
    Shitbox.Detector.check_high_g, Shitbox.Detector.check_rough_road,
    Shitbox.Detector.start_event, Shitbox.Detector.update_event,
    Shitbox.Detector.end_event, Shitbox.Detector.is_on_cooldown,
    Shitbox.Detector.lookupA, Shitbox.Detector.setA, Shitbox.Detector.eraseA,
    Shitbox.Detector.getD, Shitbox.Detector.pyOr, Shitbox.Detector.min_duration_ms,
    Shitbox.Detector.az_window_size, Shitbox.RingBuffer.append,
    Shitbox.RingBuffer.get_window, abs_of_nonneg]

lemma detStepD4 :
    Shitbox.Detector.step {} 3000
      (([⟨(1000 : ℚ), (-(3/5) : ℚ), (0 : ℚ), (0 : ℚ), (0 : ℚ), (0 : ℚ), (0 : ℚ)⟩, ⟨(10001/10 : ℚ), (-(3/5) : ℚ), (0 : ℚ), (0 : ℚ), (0 : ℚ), (0 : ℚ), (0 : ℚ)⟩, ⟨(5001/5 : ℚ), (-(3/5) : ℚ), (0 : ℚ), (0 : ℚ), (0 : ℚ), (0 : ℚ), (0 : ℚ)⟩, ⟨(10003/10 : ℚ), (0 : ℚ), (0 : ℚ), (0 : ℚ), (0 : ℚ), (0 : ℚ), (0 : ℚ)⟩], ⟨[], [(EventType.HARD_BRAKE, (10003/10 : ℚ))], [(EventType.HARD_BRAKE, 1), (EventType.BIG_CORNER, 0), (EventType.ROUGH_ROAD, 0), (EventType.HIGH_G, 0), (EventType.MANUAL_CAPTURE, 0), (EventType.BOOT, 0)], [(0 : ℚ), (0 : ℚ), (0 : ℚ), (0 : ℚ)]⟩), [⟨EventType.HARD_BRAKE, (1000 : ℚ), (10003/10 : ℚ), (3/5 : ℚ), (-(3/5) : ℚ), (0 : ℚ), (0 : ℚ), [⟨(1000 : ℚ), (-(3/5) : ℚ), (0 : ℚ), (0 : ℚ), (0 : ℚ), (0 : ℚ), (0 : ℚ)⟩, ⟨(10001/10 : ℚ), (-(3/5) : ℚ), (0 : ℚ), (0 : ℚ), (0 : ℚ), (0 : ℚ), (0 : ℚ)⟩, ⟨(5001/5 : ℚ), (-(3/5) : ℚ), (0 : ℚ), (0 : ℚ), (0 : ℚ), (0 : ℚ), (0 : ℚ)⟩, ⟨(10003/10 : ℚ), (0 : ℚ), (0 : ℚ), (0 : ℚ), (0 : ℚ), (0 : ℚ), (0 : ℚ)⟩]⟩])
      ⟨(1015 : ℚ), (-(3/5) : ℚ), (0 : ℚ), (0 : ℚ), (0 : ℚ), (0 : ℚ), (0 : ℚ)⟩
    = (([⟨(1000 : ℚ), (-(3/5) : ℚ), (0 : ℚ), (0 : ℚ), (0 : ℚ), (0 : ℚ), (0 : ℚ)⟩, ⟨(10001/10 : ℚ), (-(3/5) : ℚ), (0 : ℚ), (0 : ℚ), (0 : ℚ), (0 : ℚ), (0 : ℚ)⟩, ⟨(5001/5 : ℚ), (-(3/5) : ℚ), (0 : ℚ), (0 : ℚ), (0 : ℚ), (0 : ℚ), (0 : ℚ)⟩, ⟨(10003/10 : ℚ), (0 : ℚ), (0 : ℚ), (0 : ℚ), (0 : ℚ), (0 : ℚ), (0 : ℚ)⟩, ⟨(1015 : ℚ), (-(3/5) : ℚ), (0 : ℚ), (0 : ℚ), (0 : ℚ), (0 : ℚ), (0 : ℚ)⟩], ⟨[(EventType.HARD_BRAKE, ⟨(1015 : ℚ), [⟨(1015 : ℚ), (-(3/5) : ℚ), (0 : ℚ), (0 : ℚ), (0 : ℚ), (0 : ℚ), (0 : ℚ)⟩], (3/5 : ℚ), (-(3/5) : ℚ), (0 : ℚ), (0 : ℚ)⟩)], [(EventType.HARD_BRAKE, (10003/10 : ℚ))], [(EventType.HARD_BRAKE, 1), (EventType.BIG_CORNER, 0), (EventType.ROUGH_ROAD, 0), (EventType.HIGH_G, 0), (EventType.MANUAL_CAPTURE, 0), (EventType.BOOT, 0)], [(0 : ℚ), (0 : ℚ), (0 : ℚ), (0 : ℚ), (0 : ℚ)]⟩), [⟨EventType.HARD_BRAKE, (1000 : ℚ), (10003/10 : ℚ), (3/5 : ℚ), (-(3/5) : ℚ), (0 : ℚ), (0 : ℚ), [⟨(1000 : ℚ), (-(3/5) : ℚ), (0 : ℚ), (0 : ℚ), (0 : ℚ), (0 : ℚ), (0 : ℚ)⟩, ⟨(10001/10 : ℚ), (-(3/5) : ℚ), (0 : ℚ), (0 : ℚ), (0 : ℚ), (0 : ℚ), (0 : ℚ)⟩, ⟨(5001/5 : ℚ), (-(3/5) : ℚ), (0 : ℚ), (0 : ℚ), (0 : ℚ), (0 : ℚ), (0 : ℚ)⟩, ⟨(10003/10 : ℚ), (0 : ℚ), (0 : ℚ), (0 : ℚ), (0 : ℚ), (0 : ℚ), (0 : ℚ)⟩]⟩]) := by
  norm_num +decide [Shitbox.Detector.step, Shitbox.Detector.process_sample,
    Shitbox.Detector.check_hard_brake, Shitbox.Detector.check_big_corner,
    Shitbox.Detector.check_high_g, Shitbox.Detector.check_rough_road,
    Shitbox.Detector.start_event, Shitbox.Detector.update_event,
    Shitbox.Detector.end_event, Shitbox.Detector.is_on_cooldown,
    Shitbox.Detector.lookupA, Shitbox.Detector.setA, Shitbox.Detector.eraseA,
    Shitbox.Detector.getD, Shitbox.Detector.pyOr, Shitbox.Detector.min_duration_ms,
    Shitbox.Detector.az_window_size, Shitbox.RingBuffer.append,
    Shitbox.RingBuffer.get_window, abs_of_nonneg]

lemma detStepD5 :
    Shitbox.Detector.step {} 3000
      (([⟨(1000 : ℚ), (-(3/5) : ℚ), (0 : ℚ), (0 : ℚ), (0 : ℚ), (0 : ℚ), (0 : ℚ)⟩, ⟨(10001/10 : ℚ), (-(3/5) : ℚ), (0 : ℚ), (0 : ℚ), (0 : ℚ), (0 : ℚ), (0 : ℚ)⟩, ⟨(5001/5 : ℚ), (-(3/5) : ℚ), (0 : ℚ), (0 : ℚ), (0 : ℚ), (0 : ℚ), (0 : ℚ)⟩, ⟨(10003/10 : ℚ), (0 : ℚ), (0 : ℚ), (0 : ℚ), (0 : ℚ), (0 : ℚ), (0 : ℚ)⟩, ⟨(1015 : ℚ), (-(3/5) : ℚ), (0 : ℚ), (0 : ℚ), (0 : ℚ), (0 : ℚ), (0 : ℚ)⟩], ⟨[(EventType.HARD_BRAKE, ⟨(1015 : ℚ), [⟨(1015 : ℚ), (-(3/5) : ℚ), (0 : ℚ), (0 : ℚ), (0 : ℚ), (0 : ℚ), (0 : ℚ)⟩], (3/5 : ℚ), (-(3/5) : ℚ), (0 : ℚ), (0 : ℚ)⟩)], [(EventType.HARD_BRAKE, (10003/10 : ℚ))], [(EventType.HARD_BRAKE, 1), (EventType.BIG_CORNER, 0), (EventType.ROUGH_ROAD, 0), (EventType.HIGH_G, 0), (EventType.MANUAL_CAPTURE, 0), (EventType.BOOT, 0)], [(0 : ℚ), (0 : ℚ), (0 : ℚ), (0 : ℚ), (0 : ℚ)]⟩), [⟨EventType.HARD_BRAKE, (1000 : ℚ), (10003/10 : ℚ), (3/5 : ℚ), (-(3/5) : ℚ), (0 : ℚ), (0 : ℚ), [⟨(1000 : ℚ), (-(3/5) : ℚ), (0 : ℚ), (0 : ℚ), (0 : ℚ), (0 : ℚ), (0 : ℚ)⟩, ⟨(10001/10 : ℚ), (-(3/5) : ℚ), (0 : ℚ), (0 : ℚ), (0 : ℚ), (0 : ℚ), (0 : ℚ)⟩, ⟨(5001/5 : ℚ), (-(3/5) : ℚ), (0 : ℚ), (0 : ℚ), (0 : ℚ), (0 : ℚ), (0 : ℚ)⟩, ⟨(10003/10 : ℚ), (0 : ℚ), (0 : ℚ), (0 : ℚ), (0 : ℚ), (0 : ℚ), (0 : ℚ)⟩]⟩])
      ⟨(10151/10 : ℚ), (-(3/5) : ℚ), (0 : ℚ), (0 : ℚ), (0 : ℚ), (0 : ℚ), (0 : ℚ)⟩
    = (([⟨(1000 : ℚ), (-(3/5) : ℚ), (0 : ℚ), (0 : ℚ), (0 : ℚ), (0 : ℚ), (0 : ℚ)⟩, ⟨(10001/10 : ℚ), (-(3/5) : ℚ), (0 : ℚ), (0 : ℚ), (0 : ℚ), (0 : ℚ), (0 : ℚ)⟩, ⟨(5001/5 : ℚ), (-(3/5) : ℚ), (0 : ℚ), (0 : ℚ), (0 : ℚ), (0 : ℚ), (0 : ℚ)⟩, ⟨(10003/10 : ℚ), (0 : ℚ), (0 : ℚ), (0 : ℚ), (0 : ℚ), (0 : ℚ), (0 : ℚ)⟩, ⟨(1015 : ℚ), (-(3/5) : ℚ), (0 : ℚ), (0 : ℚ), (0 : ℚ), (0 : ℚ), (0 : ℚ)⟩, ⟨(10151/10 : ℚ), (-(3/5) : ℚ), (0 : ℚ), (0 : ℚ), (0 : ℚ), (0 : ℚ), (0 : ℚ)⟩], ⟨[(EventType.HARD_BRAKE, ⟨(1015 : ℚ), [⟨(1015 : ℚ), (-(3/5) : ℚ), (0 : ℚ), (0 : ℚ), (0 : ℚ), (0 : ℚ), (0 : ℚ)⟩, ⟨(10151/10 : ℚ), (-(3/5) : ℚ), (0 : ℚ), (0 : ℚ), (0 : ℚ), (0 : ℚ), (0 : ℚ)⟩], (3/5 : ℚ), (-(3/5) : ℚ), (0 : ℚ), (0 : ℚ)⟩)], [(EventType.HARD_BRAKE, (10003/10 : ℚ))], [(EventType.HARD_BRAKE, 1), (EventType.BIG_CORNER, 0), (EventType.ROUGH_ROAD, 0), (EventType.HIGH_G, 0), (EventType.MANUAL_CAPTURE, 0), (EventType.BOOT, 0)], [(0 : ℚ), (0 : ℚ), (0 : ℚ), (0 : ℚ), (0 : ℚ), (0 : ℚ)]⟩), [⟨EventType.HARD_BRAKE, (1000 : ℚ), (10003/10 : ℚ), (3/5 : ℚ), (-(3/5) : ℚ), (0 : ℚ), (0 : ℚ), [⟨(1000 : ℚ), (-(3/5) : ℚ), (0 : ℚ), (0 : ℚ), (0 : ℚ), (0 : ℚ), (0 : ℚ)⟩, ⟨(10001/10 : ℚ), (-(3/5) : ℚ), (0 : ℚ), (0 : ℚ), (0 : ℚ), (0 : ℚ), (0 : ℚ)⟩, ⟨(5001/5 : ℚ), (-(3/5) : ℚ), (0 : ℚ), (0 : ℚ), (0 : ℚ), (0 : ℚ), (0 : ℚ)⟩, ⟨(10003/10 : ℚ), (0 : ℚ), (0 : ℚ), (0 : ℚ), (0 : ℚ), (0 : ℚ), (0 : ℚ)⟩]⟩]) := by
  norm_num +decide [Shitbox.Detector.step, Shitbox.Detector.process_sample,
    Shitbox.Detector.check_hard_brake, Shitbox.Detector.check_big_corner,
    Shitbox.Detector.check_high_g, Shitbox.Detector.check_rough_road,
    Shitbox.Detector.start_event, Shitbox.Detector.update_event,
    Shitbox.Detector.end_event, Shitbox.Detector.is_on_cooldown,
    Shitbox.Detector.lookupA, Shitbox.Detector.setA, Shitbox.Detector.eraseA,
    Shitbox.Detector.getD, Shitbox.Detector.pyOr, Shitbox.Detector.min_duration_ms,
    Shitbox.Detector.az_window_size, Shitbox.RingBuffer.append,
    Shitbox.RingBuffer.get_window, abs_of_nonneg]

lemma detStepD6 :
    Shitbox.Detector.step {} 3000
      (([⟨(1000 : ℚ), (-(3/5) : ℚ), (0 : ℚ), (0 : ℚ), (0 : ℚ), (0 : ℚ), (0 : ℚ)⟩, ⟨(10001/10 : ℚ), (-(3/5) : ℚ), (0 : ℚ), (0 : ℚ), (0 : ℚ), (0 : ℚ), (0 : ℚ)⟩, ⟨(5001/5 : ℚ), (-(3/5) : ℚ), (0 : ℚ), (0 : ℚ), (0 : ℚ), (0 : ℚ), (0 : ℚ)⟩, ⟨(10003/10 : ℚ), (0 : ℚ), (0 : ℚ), (0 : ℚ), (0 : ℚ), (0 : ℚ), (0 : ℚ)⟩, ⟨(1015 : ℚ), (-(3/5) : ℚ), (0 : ℚ), (0 : ℚ), (0 : ℚ), (0 : ℚ), (0 : ℚ)⟩, ⟨(10151/10 : ℚ), (-(3/5) : ℚ), (0 : ℚ), (0 : ℚ), (0 : ℚ), (0 : ℚ), (0 : ℚ)⟩], ⟨[(EventType.HARD_BRAKE, ⟨(1015 : ℚ), [⟨(1015 : ℚ), (-(3/5) : ℚ), (0 : ℚ), (0 : ℚ), (0 : ℚ), (0 : ℚ), (0 : ℚ)⟩, ⟨(10151/10 : ℚ), (-(3/5) : ℚ), (0 : ℚ), (0 : ℚ), (0 : ℚ), (0 : ℚ), (0 : ℚ)⟩], (3/5 : ℚ), (-(3/5) : ℚ), (0 : ℚ), (0 : ℚ)⟩)], [(EventType.HARD_BRAKE, (10003/10 : ℚ))], [(EventType.HARD_BRAKE, 1), (EventType.BIG_CORNER, 0), (EventType.ROUGH_ROAD, 0), (EventType.HIGH_G, 0), (EventType.MANUAL_CAPTURE, 0), (EventType.BOOT, 0)], [(0 : ℚ), (0 : ℚ), (0 : ℚ), (0 : ℚ), (0 : ℚ), (0 : ℚ)]⟩), [⟨EventType.HARD_BRAKE, (1000 : ℚ), (10003/10 : ℚ), (3/5 : ℚ), (-(3/5) : ℚ), (0 : ℚ), (0 : ℚ), [⟨(1000 : ℚ), (-(3/5) : ℚ), (0 : ℚ), (0 : ℚ), (0 : ℚ), (0 : ℚ), (0 : ℚ)⟩, ⟨(10001/10 : ℚ), (-(3/5) : ℚ), (0 : ℚ), (0 : ℚ), (0 : ℚ), (0 : ℚ), (0 : ℚ)⟩, ⟨(5001/5 : ℚ), (-(3/5) : ℚ), (0 : ℚ), (0 : ℚ), (0 : ℚ), (0 : ℚ), (0 : ℚ)⟩, ⟨(10003/10 : ℚ), (0 : ℚ), (0 : ℚ), (0 : ℚ), (0 : ℚ), (0 : ℚ), (0 : ℚ)⟩]⟩])
      ⟨(5076/5 : ℚ), (-(3/5) : ℚ), (0 : ℚ), (0 : ℚ), (0 : ℚ), (0 : ℚ), (0 : ℚ)⟩
    = (([⟨(1000 : ℚ), (-(3/5) : ℚ), (0 : ℚ), (0 : ℚ), (0 : ℚ), (0 : ℚ), (0 : ℚ)⟩, ⟨(10001/10 : ℚ), (-(3/5) : ℚ), (0 : ℚ), (0 : ℚ), (0 : ℚ), (0 : ℚ), (0 : ℚ)⟩, ⟨(5001/5 : ℚ), (-(3/5) : ℚ), (0 : ℚ), (0 : ℚ), (0 : ℚ), (0 : ℚ), (0 : ℚ)⟩, ⟨(10003/10 : ℚ), (0 : ℚ), (0 : ℚ), (0 : ℚ), (0 : ℚ), (0 : ℚ), (0 : ℚ)⟩, ⟨(1015 : ℚ), (-(3/5) : ℚ), (0 : ℚ), (0 : ℚ), (0 : ℚ), (0 : ℚ), (0 : ℚ)⟩, ⟨(10151/10 : ℚ), (-(3/5) : ℚ), (0 : ℚ), (0 : ℚ), (0 : ℚ), (0 : ℚ), (0 : ℚ)⟩, ⟨(5076/5 : ℚ), (-(3/5) : ℚ), (0 : ℚ), (0 : ℚ), (0 : ℚ), (0 : ℚ), (0 : ℚ)⟩], ⟨[(EventType.HARD_BRAKE, ⟨(1015 : ℚ), [⟨(1015 : ℚ), (-(3/5) : ℚ), (0 : ℚ), (0 : ℚ), (0 : ℚ), (0 : ℚ), (0 : ℚ)⟩, ⟨(10151/10 : ℚ), (-(3/5) : ℚ), (0 : ℚ), (0 : ℚ), (0 : ℚ), (0 : ℚ), (0 : ℚ)⟩, ⟨(5076/5 : ℚ), (-(3/5) : ℚ), (0 : ℚ), (0 : ℚ), (0 : ℚ), (0 : ℚ), (0 : ℚ)⟩], (3/5 : ℚ), (-(3/5) : ℚ), (0 : ℚ), (0 : ℚ)⟩)], [(EventType.HARD_BRAKE, (10003/10 : ℚ))], [(EventType.HARD_BRAKE, 1), (EventType.BIG_CORNER, 0), (EventType.ROUGH_ROAD, 0), (EventType.HIGH_G, 0), (EventType.MANUAL_CAPTURE, 0), (EventType.BOOT, 0)], [(0 : ℚ), (0 : ℚ), (0 : ℚ), (0 : ℚ), (0 : ℚ), (0 : ℚ), (0 : ℚ)]⟩), [⟨EventType.HARD_BRAKE, (1000 : ℚ), (10003/10 : ℚ), (3/5 : ℚ), (-(3/5) : ℚ), (0 : ℚ), (0 : ℚ), [⟨(1000 : ℚ), (-(3/5) : ℚ), (0 : ℚ), (0 : ℚ), (0 : ℚ), (0 : ℚ), (0 : ℚ)⟩, ⟨(10001/10 : ℚ), (-(3/5) : ℚ), (0 : ℚ), (0 : ℚ), (0 : ℚ), (0 : ℚ), (0 : ℚ)⟩, ⟨(5001/5 : ℚ), (-(3/5) : ℚ), (0 : ℚ), (0 : ℚ), (0 : ℚ), (0 : ℚ), (0 : ℚ)⟩, ⟨(10003/10 : ℚ), (0 : ℚ), (0 : ℚ), (0 : ℚ), (0 : ℚ), (0 : ℚ), (0 : ℚ)⟩]⟩]) := by
  norm_num +decide [Shitbox.Detector.step, Shitbox.Detector.process_sample,
    Shitbox.Detector.check_hard_brake, Shitbox.Detector.check_big_corner,
    Shitbox.Detector.check_high_g, Shitbox.Detector.check_rough_road,
    Shitbox.Detector.start_event, Shitbox.Detector.update_event,
    Shitbox.Detector.end_event, Shitbox.Detector.is_on_cooldown,
    Shitbox.Detector.lookupA, Shitbox.Detector.setA, Shitbox.Detector.eraseA,
    Shitbox.Detector.getD, Shitbox.Detector.pyOr, Shitbox.Detector.min_duration_ms,
    Shitbox.Detector.az_window_size, Shitbox.RingBuffer.append,
    Shitbox.RingBuffer.get_window, abs_of_nonneg]

lemma detStepD7 :
    Shitbox.Detector.step {} 3000
      (([⟨(1000 : ℚ), (-(3/5) : ℚ), (0 : ℚ), (0 : ℚ), (0 : ℚ), (0 : ℚ), (0 : ℚ)⟩, ⟨(10001/10 : ℚ), (-(3/5) : ℚ), (0 : ℚ), (0 : ℚ), (0 : ℚ), (0 : ℚ), (0 : ℚ)⟩, ⟨(5001/5 : ℚ), (-(3/5) : ℚ), (0 : ℚ), (0 : ℚ), (0 : ℚ), (0 : ℚ), (0 : ℚ)⟩, ⟨(10003/10 : ℚ), (0 : ℚ), (0 : ℚ), (0 : ℚ), (0 : ℚ), (0 : ℚ), (0 : ℚ)⟩, ⟨(1015 : ℚ), (-(3/5) : ℚ), (0 : ℚ), (0 : ℚ), (0 : ℚ), (0 : ℚ), (0 : ℚ)⟩, ⟨(10151/10 : ℚ), (-(3/5) : ℚ), (0 : ℚ), (0 : ℚ), (0 : ℚ), (0 : ℚ), (0 : ℚ)⟩, ⟨(5076/5 : ℚ), (-(3/5) : ℚ), (0 : ℚ), (0 : ℚ), (0 : ℚ), (0 : ℚ), (0 : ℚ)⟩], ⟨[(EventType.HARD_BRAKE, ⟨(1015 : ℚ), [⟨(1015 : ℚ), (-(3/5) : ℚ), (0 : ℚ), (0 : ℚ), (0 : ℚ), (0 : ℚ), (0 : ℚ)⟩, ⟨(10151/10 : ℚ), (-(3/5) : ℚ), (0 : ℚ), (0 : ℚ), (0 : ℚ), (0 : ℚ), (0 : ℚ)⟩, ⟨(5076/5 : ℚ), (-(3/5) : ℚ), (0 : ℚ), (0 : ℚ), (0 : ℚ), (0 : ℚ), (0 : ℚ)⟩], (3/5 : ℚ), (-(3/5) : ℚ), (0 : ℚ), (0 : ℚ)⟩)], [(EventType.HARD_BRAKE, (10003/10 : ℚ))], [(EventType.HARD_BRAKE, 1), (EventType.BIG_CORNER, 0), (EventType.ROUGH_ROAD, 0), (EventType.HIGH_G, 0), (EventType.MANUAL_CAPTURE, 0), (EventType.BOOT, 0)], [(0 : ℚ), (0 : ℚ), (0 : ℚ), (0 : ℚ), (0 : ℚ), (0 : ℚ), (0 : ℚ)]⟩), [⟨EventType.HARD_BRAKE, (1000 : ℚ), (10003/10 : ℚ), (3/5 : ℚ), (-(3/5) : ℚ), (0 : ℚ), (0 : ℚ), [⟨(1000 : ℚ), (-(3/5) : ℚ), (0 : ℚ), (0 : ℚ), (0 : ℚ), (0 : ℚ), (0 : ℚ)⟩, ⟨(10001/10 : ℚ), (-(3/5) : ℚ), (0 : ℚ), (0 : ℚ), (0 : ℚ), (0 : ℚ), (0 : ℚ)⟩, ⟨(5001/5 : ℚ), (-(3/5) : ℚ), (0 : ℚ), (0 : ℚ), (0 : ℚ), (0 : ℚ), (0 : ℚ)⟩, ⟨(10003/10 : ℚ), (0 : ℚ), (0 : ℚ), (0 : ℚ), (0 : ℚ), (0 : ℚ), (0 : ℚ)⟩]⟩])
      ⟨(10153/10 : ℚ), (0 : ℚ), (0 : ℚ), (0 : ℚ), (0 : ℚ), (0 : ℚ), (0 : ℚ)⟩
    = (([⟨(1000 : ℚ), (-(3/5) : ℚ), (0 : ℚ), (0 : ℚ), (0 : ℚ), (0 : ℚ), (0 : ℚ)⟩, ⟨(10001/10 : ℚ), (-(3/5) : ℚ), (0 : ℚ), (0 : ℚ), (0 : ℚ), (0 : ℚ), (0 : ℚ)⟩, ⟨(5001/5 : ℚ), (-(3/5) : ℚ), (0 : ℚ), (0 : ℚ), (0 : ℚ), (0 : ℚ), (0 : ℚ)⟩, ⟨(10003/10 : ℚ), (0 : ℚ), (0 : ℚ), (0 : ℚ), (0 : ℚ), (0 : ℚ), (0 : ℚ)⟩, ⟨(1015 : ℚ), (-(3/5) : ℚ), (0 : ℚ), (0 : ℚ), (0 : ℚ), (0 : ℚ), (0 : ℚ)⟩, ⟨(10151/10 : ℚ), (-(3/5) : ℚ), (0 : ℚ), (0 : ℚ), (0 : ℚ), (0 : ℚ), (0 : ℚ)⟩, ⟨(5076/5 : ℚ), (-(3/5) : ℚ), (0 : ℚ), (0 : ℚ), (0 : ℚ), (0 : ℚ), (0 : ℚ)⟩, ⟨(10153/10 : ℚ), (0 : ℚ), (0 : ℚ), (0 : ℚ), (0 : ℚ), (0 : ℚ), (0 : ℚ)⟩], ⟨[], [(EventType.HARD_BRAKE, (10153/10 : ℚ))], [(EventType.HARD_BRAKE, 2), (EventType.BIG_CORNER, 0), (EventType.ROUGH_ROAD, 0), (EventType.HIGH_G, 0), (EventType.MANUAL_CAPTURE, 0), (EventType.BOOT, 0)], [(0 : ℚ), (0 : ℚ), (0 : ℚ), (0 : ℚ), (0 : ℚ), (0 : ℚ), (0 : ℚ), (0 : ℚ)]⟩), [⟨EventType.HARD_BRAKE, (1000 : ℚ), (10003/10 : ℚ), (3/5 : ℚ), (-(3/5) : ℚ), (0 : ℚ), (0 : ℚ), [⟨(1000 : ℚ), (-(3/5) : ℚ), (0 : ℚ), (0 : ℚ), (0 : ℚ), (0 : ℚ), (0 : ℚ)⟩, ⟨(10001/10 : ℚ), (-(3/5) : ℚ), (0 : ℚ), (0 : ℚ), (0 : ℚ), (0 : ℚ), (0 : ℚ)⟩, ⟨(5001/5 : ℚ), (-(3/5) : ℚ), (0 : ℚ), (0 : ℚ), (0 : ℚ), (0 : ℚ), (0 : ℚ)⟩, ⟨(10003/10 : ℚ), (0 : ℚ), (0 : ℚ), (0 : ℚ), (0 : ℚ), (0 : ℚ), (0 : ℚ)⟩]⟩, ⟨EventType.HARD_BRAKE, (1015 : ℚ), (10153/10 : ℚ), (3/5 : ℚ), (-(3/5) : ℚ), (0 : ℚ), (0 : ℚ), [⟨(1015 : ℚ), (-(3/5) : ℚ), (0 : ℚ), (0 : ℚ), (0 : ℚ), (0 : ℚ), (0 : ℚ)⟩, ⟨(10151/10 : ℚ), (-(3/5) : ℚ), (0 : ℚ), (0 : ℚ), (0 : ℚ), (0 : ℚ), (0 : ℚ)⟩, ⟨(5076/5 : ℚ), (-(3/5) : ℚ), (0 : ℚ), (0 : ℚ), (0 : ℚ), (0 : ℚ), (0 : ℚ)⟩, ⟨(10153/10 : ℚ), (0 : ℚ), (0 : ℚ), (0 : ℚ), (0 : ℚ), (0 : ℚ), (0 : ℚ)⟩]⟩]) := by
  norm_num +decide [Shitbox.Detector.step, Shitbox.Detector.process_sample,
    Shitbox.Detector.check_hard_brake, Shitbox.Detector.check_big_corner,
    Shitbox.Detector.check_high_g, Shitbox.Detector.check_rough_road,
    Shitbox.Detector.start_event, Shitbox.Detector.update_event,
    Shitbox.Detector.end_event, Shitbox.Detector.is_on_cooldown,
    Shitbox.Detector.lookupA, Shitbox.Detector.setA, Shitbox.Detector.eraseA,
    Shitbox.Detector.getD, Shitbox.Detector.pyOr, Shitbox.Detector.min_duration_ms,
    Shitbox.Detector.az_window_size, Shitbox.RingBuffer.append,
    Shitbox.RingBuffer.get_window, abs_of_nonneg]

end Shitbox.Detector
/-- C9: for every sequence of appends, the sample ring buffer never exceeds its
capacity, keeps samples in insertion order (the buffer is always the suffix of
the appended sequence obtained by evicting the oldest entries), `get_window`
on an empty buffer is empty, `get_window` returns exactly the samples whose
timestamp is at least the latest timestamp minus `seconds`, and under
monotone timestamps that window is a contiguous (suffix) block of the buffer. -/
theorem C9_sample_ring_buffer_invariants (m : ℕ) (l : List Shitbox.IMUSample) (seconds : ℚ) :
    (Shitbox.RingBuffer.run_appends m l).length ≤ m
    ∧ Shitbox.RingBuffer.run_appends m l = l.drop (l.length - m)
    ∧ Shitbox.RingBuffer.get_window [] seconds = []
    ∧ (∀ last, (Shitbox.RingBuffer.run_appends m l).getLast? = some last →
        ∀ s, s ∈ Shitbox.RingBuffer.get_window (Shitbox.RingBuffer.run_appends m l) seconds ↔
          s ∈ Shitbox.RingBuffer.run_appends m l ∧ last.timestamp - seconds ≤ s.timestamp)
    ∧ (l.Pairwise (fun a b => a.timestamp ≤ b.timestamp) →
        Shitbox.RingBuffer.get_window (Shitbox.RingBuffer.run_appends m l) seconds
          <:+ Shitbox.RingBuffer.run_appends m l) := by
  refine ⟨?_, Shitbox.RingBuffer.run_appends_eq_drop m l, rfl, ?_, ?_⟩
  · rw [Shitbox.RingBuffer.run_appends_length]; omega
  · intro last hlast s
    unfold Shitbox.RingBuffer.get_window
    rw [hlast]
    simp [List.mem_filter]
  · intro hsorted
    have hsub : (Shitbox.RingBuffer.run_appends m l).Pairwise
        (fun a b => a.timestamp ≤ b.timestamp) := by
      have hsuffix : Shitbox.RingBuffer.run_appends m l <:+ l := by
        rw [Shitbox.RingBuffer.run_appends_eq_drop]
        exact List.drop_suffix _ _
      exact hsorted.sublist hsuffix.sublist
    unfold Shitbox.RingBuffer.get_window
    cases hlast : (Shitbox.RingBuffer.run_appends m l).getLast? with
    | none => simp
    | some last => exact Shitbox.RingBuffer.filter_cutoff_suffix _ _ hsub

/-- Witness for C9 at a concrete input: three samples appended into a
capacity-2 buffer, monotone timestamps, window of 1 second. -/
theorem C9_sample_ring_buffer_invariants_witness :
    Shitbox.RingBuffer.get_window
        (Shitbox.RingBuffer.run_appends 2
          [⟨0, 0, 0, 0, 0, 0, 0⟩, ⟨1, 0, 0, 0, 0, 0, 0⟩, ⟨2, 0, 0, 0, 0, 0, 0⟩]) 1
      <:+ Shitbox.RingBuffer.run_appends 2
          [⟨0, 0, 0, 0, 0, 0, 0⟩, ⟨1, 0, 0, 0, 0, 0, 0⟩, ⟨2, 0, 0, 0, 0, 0, 0⟩] :=
  (C9_sample_ring_buffer_invariants 2
    [⟨0, 0, 0, 0, 0, 0, 0⟩, ⟨1, 0, 0, 0, 0, 0, 0⟩, ⟨2, 0, 0, 0, 0, 0, 0⟩] 1).2.2.2.2
    (by norm_num [List.pairwise_cons])

/-- C10: on a non-empty buffer, `get_latest(0)` returns the entire buffer
(Python's `lst[-0:]` is the whole list), and for `n ≥ len(buffer)` all
samples are returned. -/
theorem C10_get_latest_zero (buf : List Shitbox.IMUSample) (hne : buf ≠ []) :
    Shitbox.RingBuffer.get_latest 0 buf = buf
    ∧ ∀ n, buf.length ≤ n → Shitbox.RingBuffer.get_latest n buf = buf := by
  constructor
  · unfold Shitbox.RingBuffer.get_latest Shitbox.RingBuffer.pyLastSlice
    have : ¬ buf.length ≤ 0 := by
      simp only [Nat.le_zero, List.length_eq_zero]
      exact hne
    simp [this]
  · intro n hn
    unfold Shitbox.RingBuffer.get_latest
    simp [hn]

/-- Witness for C10: a concrete two-sample buffer. -/
theorem C10_get_latest_zero_witness :
    Shitbox.RingBuffer.get_latest 0 [⟨0, 0, 0, 0, 0, 0, 0⟩, ⟨1, 0, 0, 0, 0, 0, 0⟩]
      = [⟨0, 0, 0, 0, 0, 0, 0⟩, ⟨1, 0, 0, 0, 0, 0, 0⟩] :=
  (C10_get_latest_zero [⟨0, 0, 0, 0, 0, 0, 0⟩, ⟨1, 0, 0, 0, 0, 0, 0⟩] (by simp)).1
/-- C4: `_check_stall` returns no verdict with no segments present; on the
first observation after a (re)launch it only arms and baselines; on any poll
where the newest segment's mtime or size differs from the baseline it
rebaselines and returns no verdict; it returns a stall verdict exactly when
neither changed and more than the stall timeout elapsed since the baseline
mtime; and `_reset_stall_state` (run at the start of every `_start_ffmpeg`
launch) restores the initial unarmed state. -/
theorem C4_check_stall_behaviour (st : Shitbox.VideoRingBuffer.StallState)
    (segments : List Shitbox.VideoRingBuffer.Segment) (now : ℚ) :
    Shitbox.VideoRingBuffer.check_stall st [] now = (st, none)
    ∧ (st.stall_check_armed = false → ∀ newest, segments.getLast? = some newest →
        Shitbox.VideoRingBuffer.check_stall st segments now =
          ({ last_segment_mtime := newest.mtime, last_segment_size := newest.size,
             stall_check_armed := true }, none))
    ∧ (∀ newest, segments.getLast? = some newest → st.stall_check_armed = true →
        (newest.mtime ≠ st.last_segment_mtime ∨ newest.size ≠ st.last_segment_size) →
        Shitbox.VideoRingBuffer.check_stall st segments now =
          ({ last_segment_mtime := newest.mtime, last_segment_size := newest.size,
             stall_check_armed := true }, none))
    ∧ (∀ newest, segments.getLast? = some newest → st.stall_check_armed = true →
        newest.mtime = st.last_segment_mtime → newest.size = st.last_segment_size →
        ((Shitbox.VideoRingBuffer.check_stall st segments now).2.isSome ↔
          Shitbox.VideoRingBuffer.STALL_TIMEOUT_SECONDS < now - st.last_segment_mtime))
    ∧ Shitbox.VideoRingBuffer.reset_stall_state = Shitbox.VideoRingBuffer.initStallState := by
  refine ⟨rfl, ?_, ?_, ?_, rfl⟩
  · intro harm newest hlast
    unfold Shitbox.VideoRingBuffer.check_stall
    rw [hlast]
    simp [harm]
  · intro newest hlast harm hne
    unfold Shitbox.VideoRingBuffer.check_stall
    rw [hlast]
    simp [harm, hne]
  · intro newest hlast harm hm hs
    unfold Shitbox.VideoRingBuffer.check_stall
    rw [hlast]
    simp only [harm]
    by_cases ht : Shitbox.VideoRingBuffer.STALL_TIMEOUT_SECONDS < now - st.last_segment_mtime
    · simp [hm, hs, ht]
    · simp [hm, hs, ht]

/-- Witness for C4: a concrete armed state whose newest segment is unchanged
and 31 seconds stale yields a stall verdict. -/
theorem C4_check_stall_behaviour_witness :
    (Shitbox.VideoRingBuffer.check_stall
        { last_segment_mtime := 100, last_segment_size := 5000, stall_check_armed := true }
        [{ mtime := 100, size := 5000 }] 131).2.isSome :=
  ((C4_check_stall_behaviour
      { last_segment_mtime := 100, last_segment_size := 5000, stall_check_armed := true }
      [{ mtime := 100, size := 5000 }] 131).2.2.2.1
    { mtime := 100, size := 5000 } rfl rfl rfl rfl).mpr
    (by norm_num [Shitbox.VideoRingBuffer.STALL_TIMEOUT_SECONDS])

/-- C8: when the buffer directory holds fewer than two segment files (hence
zero completed segments) both at the pre-copy and after the post-event wait,
`_do_save_event` invokes the caller's callback with `None` and raises
nothing, regardless of what the concatenation step would do. -/
theorem C8_save_event_empty_buffer {π : Type}
    (pre_snapshot post_snapshot : List Shitbox.VideoRingBuffer.Segment)
    (pre_cutoff : ℚ) (concatenate : List Shitbox.VideoRingBuffer.Segment → Option π)
    (hpre : pre_snapshot.length < 2) (hpost : post_snapshot.length < 2) :
    Shitbox.VideoRingBuffer.do_save_event pre_snapshot post_snapshot pre_cutoff
      concatenate = none := by
  unfold Shitbox.VideoRingBuffer.do_save_event Shitbox.VideoRingBuffer.copy_complete_segments
  simp [hpre, hpost]

/-- Witness for C8: an empty buffer at the pre-copy and a single (still open)
segment after the wait yield a `None` callback even with a concatenation step
that would always succeed. -/
theorem C8_save_event_empty_buffer_witness :
    Shitbox.VideoRingBuffer.do_save_event (π := ℕ) []
      [{ mtime := 7, size := 50000 }] 0 (fun _ => some 1) = none :=
  C8_save_event_empty_buffer [] [{ mtime := 7, size := 50000 }] 0 (fun _ => some 1)
    (by decide) (by decide)

/-- C3: while at least one `PendingCapture` is in flight, any non-boot event
is suppressed: `_on_event` starts no video save and no fallback recording,
adds no new pending entry (ids are preserved one-for-one), and every
deadline becomes the maximum of its old value and `now` plus the configured
post-event duration — so deadlines never decrease and at most one active
save exists per coalesced event cluster. -/
theorem C3_suppression_extends_deadline (pending : List Shitbox.Engine.PendingCapture)
    (etype : Shitbox.EventType) (eid : ℕ) (now post_event_seconds : ℚ)
    (vrb_available vrb_running : Bool) (segment_count : ℕ)
    (recorder_available recorder_recording : Bool)
    (hpending : pending ≠ []) (hboot : etype ≠ Shitbox.EventType.BOOT) :
    (Shitbox.Engine.on_event pending etype eid now post_event_seconds vrb_available
        vrb_running segment_count recorder_available recorder_recording).video_save_started
      = false
    ∧ (Shitbox.Engine.on_event pending etype eid now post_event_seconds vrb_available
        vrb_running segment_count recorder_available recorder_recording).recorder_started
      = false
    ∧ List.Forall₂ (fun p q =>
          q.event_id = p.event_id
          ∧ q.capture_until = max p.capture_until (now + post_event_seconds)
          ∧ p.capture_until ≤ q.capture_until)
        pending
        (Shitbox.Engine.on_event pending etype eid now post_event_seconds vrb_available
          vrb_running segment_count recorder_available recorder_recording).pending := by
  have hcond : pending ≠ [] ∧ etype ≠ Shitbox.EventType.BOOT := ⟨hpending, hboot⟩
  unfold Shitbox.Engine.on_event
  rw [if_pos hcond]
  refine ⟨rfl, rfl, ?_⟩
  rw [List.forall₂_map_right_iff]
  rw [List.forall₂_same]
  intro p _
  refine ⟨rfl, ?_, ?_⟩
  · by_cases h : p.capture_until < now + post_event_seconds
    · simp only [if_pos h]
      exact (max_eq_right (le_of_lt h)).symm
    · simp only [if_neg h]
      exact (max_eq_left (le_of_not_lt h)).symm
  · by_cases h : p.capture_until < now + post_event_seconds
    · simp only [if_pos h]
      exact le_of_lt h
    · simp only [if_neg h]
      exact le_refl _

/-- Witness for C3: one in-flight capture with deadline 100, a HARD_BRAKE
event at monotonic time 95 with a 10-second post-event duration. -/
theorem C3_suppression_extends_deadline_witness :
    (Shitbox.Engine.on_event [⟨1, 100⟩] Shitbox.EventType.HARD_BRAKE 2 95 10
        true true 5 false false).video_save_started = false
    ∧ (Shitbox.Engine.on_event [⟨1, 100⟩] Shitbox.EventType.HARD_BRAKE 2 95 10
        true true 5 false false).recorder_started = false
    ∧ List.Forall₂ (fun p q : Shitbox.Engine.PendingCapture =>
          q.event_id = p.event_id
          ∧ q.capture_until = max p.capture_until ((95 : ℚ) + 10)
          ∧ p.capture_until ≤ q.capture_until)
        ([⟨1, 100⟩] : List Shitbox.Engine.PendingCapture)
        (Shitbox.Engine.on_event [⟨1, 100⟩] Shitbox.EventType.HARD_BRAKE 2 95 10
          true true 5 false false).pending :=
  C3_suppression_extends_deadline [⟨1, 100⟩] Shitbox.EventType.HARD_BRAKE 2 95 10
    true true 5 false false (by simp) (by decide)

/-- C2 counterexample: with the video ring buffer configured and running but
zero segment files (hence zero completed segments, fewer than two), the
boot-capture step of `UnifiedEngine.start` still emits the synthetic boot
event into the event pipeline (`_on_event` runs and saves it metadata-only),
refuting "the synthetic boot event is emitted only when the video ring
buffer already holds at least two completed segments". -/
theorem C2_boot_event_emitted_without_segments :
    (Shitbox.Engine.engine_start_boot [] 1 0 10 true true 0 false false).boot_event_emitted
      = true
    ∧ Shitbox.Engine.completed_segment_count 0 < 2
    ∧ (Shitbox.Engine.engine_start_boot [] 1 0 10 true true 0 false false).on_event_result
      = some { pending := [], video_save_started := false, recorder_started := false,
               metadata_only_saved := true, suppressed := false } := by
  refine ⟨rfl, by decide, ?_⟩
  unfold Shitbox.Engine.engine_start_boot Shitbox.Engine.on_event
  norm_num [Shitbox.Engine.VIDEO_CAPTURE_EVENTS]

/-- C2 (amended): at engine start the synthetic boot event is emitted exactly
when the video ring buffer is configured and running, regardless of segment
count; the boot video capture is attempted exactly when the buffer directory
holds at least two segment files (at least one completed segment); with
fewer than two segment files no capture starts, no pending entry is added,
and the event is saved metadata-only. -/
theorem C2_boot_capture_gating (pending : List Shitbox.Engine.PendingCapture)
    (eid : ℕ) (now post_event_seconds : ℚ) (vrb_available vrb_running : Bool)
    (segment_count : ℕ) (recorder_available recorder_recording : Bool) :
    (Shitbox.Engine.engine_start_boot pending eid now post_event_seconds vrb_available
        vrb_running segment_count recorder_available recorder_recording).boot_event_emitted
      = (vrb_available && vrb_running)
    ∧ (vrb_available = true → vrb_running = true →
        ((Shitbox.Engine.on_event pending Shitbox.EventType.BOOT eid now
            post_event_seconds vrb_available vrb_running segment_count
            recorder_available recorder_recording).video_save_started
          = decide (2 ≤ segment_count)))
    ∧ (vrb_available = true → vrb_running = true → segment_count < 2 →
        (Shitbox.Engine.on_event pending Shitbox.EventType.BOOT eid now
            post_event_seconds vrb_available vrb_running segment_count
            recorder_available recorder_recording)
          = { pending := pending, video_save_started := false, recorder_started := false,
              metadata_only_saved := true, suppressed := false }) := by
  refine ⟨?_, ?_, ?_⟩
  · unfold Shitbox.Engine.engine_start_boot
    cases vrb_available <;> cases vrb_running <;> simp
  · intro ha hr
    unfold Shitbox.Engine.on_event
    by_cases hseg : segment_count < 2
    · simp [ha, hr, Shitbox.Engine.VIDEO_CAPTURE_EVENTS, hseg, Nat.not_le_of_lt hseg]
    · simp [ha, hr, Shitbox.Engine.VIDEO_CAPTURE_EVENTS, hseg, Nat.le_of_not_lt hseg]
  · intro ha hr hseg
    unfold Shitbox.Engine.on_event
    simp [ha, hr, Shitbox.Engine.VIDEO_CAPTURE_EVENTS, hseg]

/-- Witness for C2 (amended): ring buffer running with five segment files —
the boot event is emitted and the capture is attempted. -/
theorem C2_boot_capture_gating_witness :
    (Shitbox.Engine.engine_start_boot [] 1 0 10 true true 5 false false).boot_event_emitted
      = (true && true)
    ∧ (Shitbox.Engine.on_event [] Shitbox.EventType.BOOT 1 0 10 true true 5
        false false).video_save_started = decide (2 ≤ 5) :=
  ⟨(C2_boot_capture_gating [] 1 0 10 true true 5 false false).1,
   (C2_boot_capture_gating [] 1 0 10 true true 5 false false).2.1 rfl rfl⟩

/-- C1: the code's `_sample_loop` failure branch at the failing input.  With
four prior consecutive read failures, a fifth failing read reaches the
lockup threshold and a single failed `_i2c_bus_reset` immediately triggers
`_force_reboot` — there is no retry, backoff, or maximum-reset-attempt
counter in the shipped sampler (its own test suite imports `I2C_MAX_RESETS`
and `I2C_RESET_BACKOFF_SECONDS` and asserts reboot is gated until
`I2C_MAX_RESETS` attempts, so the code contradicts its tests). -/
theorem C1_single_failed_recovery_reboots :
    Shitbox.Sampler.sample_loop_read_failure 4 false
      = (5, Shitbox.Sampler.RecoveryAction.rebooted) := by decide
/-- C5: with the default hard-brake threshold of -0.45 g and minimum
duration 200 ms, forward acceleration of -0.6 g sustained for 300 ms followed
by a sample back above the threshold produces exactly one HARD_BRAKE event;
the same excursion sustained for only 100 ms produces none. -/
theorem C5_hard_brake_duration_gate :
    (Shitbox.Detector.run_detector {} 3000 Shitbox.Detector.c5_long).2.map
        (fun e => e.event_type) = [Shitbox.EventType.HARD_BRAKE]
    ∧ (Shitbox.Detector.run_detector {} 3000 Shitbox.Detector.c5_short).2 = [] := by
  constructor
  · simp only [Shitbox.Detector.run_detector, Shitbox.Detector.c5_long,
      Shitbox.Detector.mkS, Shitbox.Detector.initState, List.foldl_cons, List.foldl_nil]
    rw [Shitbox.Detector.detStepA0, Shitbox.Detector.detStepA1, Shitbox.Detector.detStepA2, Shitbox.Detector.detStepA3]
    rfl
  · simp only [Shitbox.Detector.run_detector, Shitbox.Detector.c5_short,
      Shitbox.Detector.mkS, Shitbox.Detector.initState, List.foldl_cons, List.foldl_nil]
    rw [Shitbox.Detector.detStepB0, Shitbox.Detector.detStepB1, Shitbox.Detector.detStepB2]

/-- C6: two qualifying hard-brake breaches 1.7 s apart (inside the 10 s
cooldown) produce exactly one completed event, and the second breach opens
no new episode (no HARD_BRAKE entry is active right after its first sample);
the same two breaches 14.7 s apart (outside the cooldown) produce two. -/
theorem C6_hard_brake_cooldown :
    (Shitbox.Detector.run_detector {} 3000 Shitbox.Detector.c6_close).2.map
        (fun e => e.event_type) = [Shitbox.EventType.HARD_BRAKE]
    ∧ Shitbox.Detector.lookupA
        (Shitbox.Detector.run_detector {} 3000 Shitbox.Detector.c6_close_prefix).1.2.active_events
        Shitbox.EventType.HARD_BRAKE = none
    ∧ (Shitbox.Detector.run_detector {} 3000 Shitbox.Detector.c6_far).2.map
        (fun e => e.event_type)
      = [Shitbox.EventType.HARD_BRAKE, Shitbox.EventType.HARD_BRAKE] := by
  refine ⟨?_, ?_, ?_⟩
  · simp only [Shitbox.Detector.run_detector, Shitbox.Detector.c6_close,
      Shitbox.Detector.mkS, Shitbox.Detector.initState, List.foldl_cons, List.foldl_nil]
    rw [Shitbox.Detector.detStepA0, Shitbox.Detector.detStepA1, Shitbox.Detector.detStepA2, Shitbox.Detector.detStepA3,
      Shitbox.Detector.detStepC4, Shitbox.Detector.detStepC5, Shitbox.Detector.detStepC6, Shitbox.Detector.detStepC7]
    rfl
  · simp only [Shitbox.Detector.run_detector, Shitbox.Detector.c6_close_prefix,
      Shitbox.Detector.mkS, Shitbox.Detector.initState, List.foldl_cons, List.foldl_nil]
    rw [Shitbox.Detector.detStepA0, Shitbox.Detector.detStepA1, Shitbox.Detector.detStepA2, Shitbox.Detector.detStepA3, Shitbox.Detector.detStepC4]
    rfl
  · simp only [Shitbox.Detector.run_detector, Shitbox.Detector.c6_far,
      Shitbox.Detector.mkS, Shitbox.Detector.initState, List.foldl_cons, List.foldl_nil]
    rw [Shitbox.Detector.detStepA0, Shitbox.Detector.detStepA1, Shitbox.Detector.detStepA2, Shitbox.Detector.detStepA3,
      Shitbox.Detector.detStepD4, Shitbox.Detector.detStepD5, Shitbox.Detector.detStepD6, Shitbox.Detector.detStepD7]
    rfl
/-- C7: for every input sample sequence shorter than the rough-road rolling
window, the detector emits no ROUGH_ROAD event and opens no ROUGH_ROAD
episode (the window cannot fill, regardless of amplitude); and on any single
call where appending the sample still leaves the window short of its size,
`_check_rough_road` returns no event. -/
theorem C7_rough_road_window_gate (cfg : Shitbox.Detector.DetectorConfig)
    (m : ℕ) (samples : List Shitbox.IMUSample)
    (h : samples.length < Shitbox.Detector.az_window_size cfg) :
    (∀ e ∈ (Shitbox.Detector.run_detector cfg m samples).2,
        e.event_type ≠ Shitbox.EventType.ROUGH_ROAD)
    ∧ Shitbox.Detector.lookupA
        (Shitbox.Detector.run_detector cfg m samples).1.2.active_events
        Shitbox.EventType.ROUGH_ROAD = none
    ∧ (∀ rb now st s, st.az_window.length + 1 < Shitbox.Detector.az_window_size cfg →
        (Shitbox.Detector.check_rough_road cfg rb now st s).2 = none) := by
  have haux := Shitbox.Detector.run_rough_aux cfg m samples [] Shitbox.Detector.initState []
    (by simpa [Shitbox.Detector.initState] using h) rfl (by simp)
  refine ⟨haux.1, haux.2, ?_⟩
  intro rb now st s hlen
  rw [Shitbox.Detector.check_rough_road_not_full cfg rb now st s hlen]

/-- Witness for C7: two samples of amplitude ±50 g on the vertical axis still
produce no ROUGH_ROAD episode under the default 100-sample window. -/
theorem C7_rough_road_window_gate_witness :
    Shitbox.Detector.lookupA
      (Shitbox.Detector.run_detector {} 3000
        [⟨0, 0, 0, 50, 0, 0, 0⟩, ⟨1/10, 0, 0, -(50), 0, 0, 0⟩]).1.2.active_events
      Shitbox.EventType.ROUGH_ROAD = none :=
  (C7_rough_road_window_gate {} 3000
    [⟨0, 0, 0, 50, 0, 0, 0⟩, ⟨1/10, 0, 0, -(50), 0, 0, 0⟩] (by decide)).2.1

